import Mathlib

/-!
# osg: ShaderTerrain geometry pool and SimpleDotVisitor

A shallow embedding of `examples/osgterrain/ShaderTerrain.cpp` and
`src/osgPlugins/dot/SimpleDotVisitor.cpp`.

Both files are written against the OpenSceneGraph object model.  The engine
itself (matrices, vectors, ellipsoid model, textures, state sets, shader
loading, floating-point arithmetic) is not part of the two files: its
operations are the fields of `Host`, and objects of the engine are records of
the values the two files read and write.  Heap objects created with `new`
whose identity matters (geometries, programs) carry the number handed out by
an allocation counter.
-/

namespace osgTerrain

/-! ## std::map -/

/-- The entries of a `std::map<K,V>`: at most one value is found per key.  The
engine's comparison functor is abstracted to equality of keys, and the order
in which the entries are stored is the order of insertion. -/
abbrev StdMap (K V : Type) := List (K × V)

/-- `m.find(k)`: the mapped value, `none` standing for `m.end()`. -/
def StdMap.find {K V : Type} [DecidableEq K] : StdMap K V → K → Option V
  | [], _ => none
  | (k', v) :: rest, k => if k' = k then some v else StdMap.find rest k

/-- `m[k] = v`: replaces the value of `k`, or adds the entry. -/
def StdMap.assign {K V : Type} [DecidableEq K] : StdMap K V → K → V → StdMap K V
  | [], k, v => [(k, v)]
  | (k', v') :: rest, k, v =>
    if k' = k then (k, v) :: rest else (k', v') :: StdMap.assign rest k v

/-! ## Engine values -/

/-- A three-component vector (`osg::Vec3d` or `osg::Vec3`). -/
structure Vec3 (R : Type) where
  x : R
  y : R
  z : R
  deriving DecidableEq, Repr

/-- A two-component vector (`osg::Vec2d` or `osg::Vec2`). -/
structure Vec2 (R : Type) where
  x : R
  y : R
  deriving DecidableEq, Repr

/-- A four-component vector (`osg::Vec4`). -/
structure Vec4 (R : Type) where
  x : R
  y : R
  z : R
  w : R
  deriving DecidableEq, Repr

/-- The values of `osgTerrain::Locator::CoordinateSystemType`. -/
inductive CoordinateSystemType where
  | GEOCENTRIC
  | GEOGRAPHIC
  | PROJECTED
  deriving DecidableEq, Repr

/-- The values of `osg::Texture::FilterMode`. -/
inductive FilterMode where
  | LINEAR
  | LINEAR_MIPMAP_LINEAR
  | LINEAR_MIPMAP_NEAREST
  | NEAREST
  | NEAREST_MIPMAP_LINEAR
  | NEAREST_MIPMAP_NEAREST
  deriving DecidableEq, Repr

/-- The one value of `osg::Texture::WrapMode` the file uses. -/
inductive WrapMode where
  | CLAMP_TO_EDGE
  deriving DecidableEq, Repr

/-- The enumeration `GeometryPool::LayerType`. -/
inductive LayerType where
  | HEIGHTFIELD_LAYER
  | COLOR_LAYER
  | CONTOUR_LAYER
  deriving DecidableEq, Repr

/-- The vector `GeometryPool::LayerTypes`, key of the program map. -/
abbrev LayerTypes := List LayerType

/-- An `osgTerrain::Locator` as the file reads it: `getTransform()`,
`getCoordinateSystemType()` and `getEllipsoidModel()` (which may be null). -/
structure Locator (M E : Type) where
  transform : M
  coordinateSystemType : CoordinateSystemType
  ellipsoidModel : Option E
  deriving DecidableEq, Repr

/-- What an `osg::Image` holds: the pixels of a colour layer (named by a tag),
or the float array of a height field wrapped by `setImage` with
`GL_LUMINANCE32F_ARB`. -/
inductive ImageData (R : Type) where
  | pixels (tag : Nat)
  | luminance32F (heights : List R)
  deriving DecidableEq, Repr

/-- An `osg::Image`: its dimensions `s()`, `t()` (C `int`) and its data. -/
structure Image (R : Type) where
  s : Int
  t : Int
  data : ImageData R
  deriving DecidableEq, Repr

/-- An `osg::HeightField`: `getNumColumns()`, `getNumRows()` and the float
array.  The dimensions are `unsigned int` in the engine and are taken to be
small enough for the `int` arithmetic of the file not to overflow. -/
structure HeightField (R : Type) where
  numColumns : Nat
  numRows : Nat
  heights : List R
  deriving DecidableEq, Repr

/-- The part every `osgTerrain::Layer` has: the address of the object, its
locator (may be null), the result of the virtual `getImage()` (may be null)
and the two filters. -/
structure LayerBase (R M E : Type) where
  ptr : Nat
  locator : Option (Locator M E)
  image : Option (Image R)
  minFilter : FilterMode
  magFilter : FilterMode
  deriving DecidableEq, Repr

/-- An `osgTerrain::Layer` by dynamic class, as far as the `dynamic_cast`s of
the file tell classes apart.  A switch layer has `getActiveLayer()` and the
list behind `getNumLayers()` and `getLayer(i)`, whose entries may be null. -/
inductive Layer (R M E : Type) where
  | heightFieldLayer (base : LayerBase R M E) (heightField : Option (HeightField R))
  | imageLayer (base : LayerBase R M E)
  | contourLayer (base : LayerBase R M E)
  | switchLayer (base : LayerBase R M E) (activeLayer : Int)
      (layers : List (Option (Layer R M E)))
  | otherLayer (base : LayerBase R M E)

/-- The `LayerBase` part of a layer. -/
def Layer.base {R M E : Type} : Layer R M E → LayerBase R M E
  | .heightFieldLayer b _ => b
  | .imageLayer b => b
  | .contourLayer b => b
  | .switchLayer b _ _ => b
  | .otherLayer b => b

/-- The call `layer->getLocator()`. -/
def Layer.getLocator {R M E : Type} (l : Layer R M E) : Option (Locator M E) :=
  l.base.locator

/-- An `osgTerrain::TerrainTile` as the file reads it: `getElevationLayer()`
(may be null), the colour layers behind `getNumColorLayers()` and
`getColorLayer(i)` (entries may be null), and the dirty mask. -/
structure TerrainTile (R M E : Type) where
  elevationLayer : Option (Layer R M E)
  colorLayers : List (Option (Layer R M E))
  dirtyMask : Int

/-- The call `tile->getColorLayer(i)`: null when `i` is past the end. -/
def TerrainTile.getColorLayer {R M E : Type} (tile : TerrainTile R M E) (i : Nat) :
    Option (Layer R M E) :=
  (tile.colorLayers.get? i).join

/-- The cast `dynamic_cast<HeightFieldLayer*>(tile->getElevationLayer())`
followed by `getHeightField()`: `none` when the cast fails, `some none` for a
height-field layer whose height field is null. -/
def TerrainTile.elevationHeightField {R M E : Type} (tile : TerrainTile R M E) :
    Option (Option (HeightField R)) :=
  match tile.elevationLayer with
  | some (.heightFieldLayer _ hf) => some hf
  | _ => none

/-- The struct `GeometryPool::GeometryKey`.  It is declared in
`ShaderTerrain.h`; the fields are the ones `createKeyForTile` assigns, `nx`
and `ny` holding the (unsigned) dimensions of a height field. -/
structure GeometryKey (R : Type) where
  sx : R
  sy : R
  y : R
  nx : Nat
  ny : Nat
  deriving DecidableEq, Repr

/-- The operations of the engine which the file calls and does not define. -/
structure Host (R M E S : Type) where
  /-- the literal `0.0` -/
  zero : R
  /-- the literal `1.0` -/
  one : R
  /-- the literal `0.5` -/
  half : R
  /-- the conversion `static_cast<double>(int)` -/
  ofInt : Int → R
  /-- the product of two numbers -/
  mul : R → R → R
  /-- the quotient of two numbers -/
  div : R → R → R
  /-- the sum of two numbers -/
  add : R → R → R
  /-- the difference of two numbers -/
  sub : R → R → R
  /-- the narrowing `static_cast<float>(double)` -/
  toFloat : R → R
  /-- the product `v * matrix` of `osg::Vec3d` and `osg::Matrixd` -/
  preMult : Vec3 R → M → Vec3 R
  /-- the call `v.length()` -/
  length : Vec3 R → R
  /-- the default-constructed `osg::Matrixd` -/
  identity : M
  /-- the inverse computed by `Matrixd::invert` -/
  invert : M → M
  /-- the call `osg::Matrixd::transform3x3(matrix, v)` -/
  transform3x3 : M → Vec3 R → Vec3 R
  /-- the call `v.normalize()` -/
  normalize : Vec3 R → Vec3 R
  /-- the call `em->computeLocalToWorldTransformFromLatLongHeight(lat, long, h, m)` -/
  computeLocalToWorldTransformFromLatLongHeight : E → R → R → R → M
  /-- the call `em->convertLatLongHeightToXYZ(lat, long, h, X, Y, Z)` -/
  convertLatLongHeightToXYZ : E → R → R → R → Vec3 R
  /-- the call `osgDB::readShaderFile(name)`, null when the file cannot be read -/
  readShaderFile : String → Option S
  /-- the default-constructed `GeometryKey` -/
  defaultKey : GeometryKey R

/-- The difference of two vectors. -/
def Host.vsub {R M E S : Type} (h : Host R M E S) (a b : Vec3 R) : Vec3 R :=
  ⟨h.sub a.x b.x, h.sub a.y b.y, h.sub a.z b.z⟩

/-- The conversion of an `osg::Vec3d` to the `osg::Vec3` stored in a `Vec3Array`. -/
def Host.toVec3f {R M E S : Type} (h : Host R M E S) (a : Vec3 R) : Vec3 R :=
  ⟨h.toFloat a.x, h.toFloat a.y, h.toFloat a.z⟩

/-! ## computeMasterLocator and the geometry key -/

/-- The function `osgTerrain::computeMasterLocator`: the locator of the
elevation layer, else the locator of colour layer 0, else null. -/
def computeMasterLocator {R M E : Type} (tile : TerrainTile R M E) : Option (Locator M E) :=
  let elevationLayer := tile.elevationLayer
  let colorLayer := tile.getColorLayer 0
  let elevationLocator := match elevationLayer with
    | some l => l.getLocator
    | none => none
  let colorLocator := match colorLayer with
    | some l => l.getLocator
    | none => none
  let masterLocator := match elevationLocator with
    | some l => some l
    | none => colorLocator
  match masterLocator with
  | none => none
  | some l => some l

/-- The function `GeometryPool::createKeyForTile`: the key passed by reference
is returned next to the result `true`. -/
def createKeyForTile {R M E S : Type} (h : Host R M E S) (tile : TerrainTile R M E)
    (key : GeometryKey R) : Bool × GeometryKey R :=
  let key1 := match computeMasterLocator tile with
    | some masterLocator =>
      let matrix := masterLocator.transform
      let bottom_left := h.preMult ⟨h.zero, h.zero, h.zero⟩ matrix
      let bottom_right := h.preMult ⟨h.one, h.zero, h.zero⟩ matrix
      let top_left := h.preMult ⟨h.one, h.one, h.zero⟩ matrix
      let k := { key with
        sx := h.toFloat (h.length (h.vsub bottom_right bottom_left))
        sy := h.toFloat (h.length (h.vsub top_left bottom_left)) }
      if masterLocator.coordinateSystemType = CoordinateSystemType.GEOCENTRIC then
        { k with y := h.toFloat bottom_left.y }
      else
        { k with y := h.zero }
    | none => key
  let key2 := match tile.elevationHeightField with
    | some (some hf) => { key1 with nx := hf.numColumns, ny := hf.numRows }
    | _ => key1
  (true, key2)

/-! ## The geometry pool -/

/-- An `osg::DrawElements` primitive set in mode `GL_QUADS`: `ushort` tells
`DrawElementsUShort` from `DrawElementsUInt`, and `indices` are the elements
as stored (in 16 or 32 bits). -/
structure DrawElements where
  ushort : Bool
  indices : List Nat
  deriving DecidableEq, Repr

/-- The call `elements->addElement(i)` for an `int` index `i`. -/
def DrawElements.addElement (e : DrawElements) (i : Int) : DrawElements :=
  { e with indices := e.indices ++ [(i % (if e.ushort then 2 ^ 16 else 2 ^ 32)).toNat] }

/-- An `osg::Geometry` as the file fills it: the address of the object, the
vertex, normal and colour arrays, the one texture-coordinate array bound to
units 0 to 3, and the primitive sets. -/
structure Geometry (R : Type) where
  ptr : Nat
  vertices : List (Vec3 R)
  normals : List (Vec3 R)
  colours : List (Vec4 R)
  texcoords : List (Vec2 R)
  primitiveSets : List DrawElements
  deriving DecidableEq, Repr

/-- An `osg::Program`: the address of the object and the shaders added to it. -/
structure Program (S : Type) where
  ptr : Nat
  shaders : List S
  deriving DecidableEq, Repr

/-- The call `program->addShader(shader)`: a null shader is not added. -/
def Program.addShader {S : Type} (p : Program S) (shader : Option S) : Program S :=
  match shader with
  | some s => { p with shaders := p.shaders ++ [s] }
  | none => p

/-- The class `GeometryPool` with the state around it: the two maps, the two
file-level counters `numberGeometryCreated` and `numberSharedGeometry`, and
the number of objects allocated so far, which is the address given to the
next `new osg::Geometry` or `new osg::Program`. -/
structure GeometryPool (R S : Type) where
  geometryMap : StdMap (GeometryKey R) (Geometry R)
  programMap : StdMap LayerTypes (Program S)
  numberGeometryCreated : Int
  numberSharedGeometry : Int
  allocated : Nat

/-- The first pair of loops of `getOrCreateGeometry`: the grid positions
`pos` in row-major order, `r` counting rows and `c` columns. -/
def gridPositions {R M E S : Type} (h : Host R M E S) (nx ny : Int) : List (Vec3 R) :=
  let r_mult := h.div h.one (h.ofInt (ny - 1))
  let c_mult := h.div h.one (h.ofInt (nx - 1))
  (List.range ny.toNat).flatMap fun (r : Nat) =>
    (List.range nx.toNat).map fun (c : Nat) =>
      ⟨h.mul (h.ofInt (c : Int)) c_mult, h.mul (h.ofInt (r : Int)) r_mult, h.zero⟩

/-- The second pair of loops of `getOrCreateGeometry`: four indices per quad. -/
def gridElements (nx ny : Int) (elements : DrawElements) : DrawElements :=
  (List.range (ny - 1).toNat).foldl (fun (e : DrawElements) (r : Nat) =>
    (List.range (nx - 1).toNat).foldl (fun (e : DrawElements) (c : Nat) =>
      let i : Int := (c : Int) + (r : Int) * nx
      (((e.addElement i).addElement (i + 1)).addElement (i + nx + 1)).addElement (i + nx)) e)
    elements

/-- The loop over `numVertices` in the geocentric branch of
`getOrCreateGeometry`: vertex and normal `i` are replaced by the reprojected
position and normal of `locationCoords[i]`. -/
def reprojectVertices {R M E S : Type} (h : Host R M E S) (em : E) (matrix : M)
    (localToWorldTransform worldToLocalTransform : M) (center : Vec3 R)
    (locationCoords : List (Vec2 R)) (numVertices : Int)
    (arrays : List (Vec3 R) × List (Vec3 R)) : List (Vec3 R) × List (Vec3 R) :=
  (List.range numVertices.toNat).foldl (fun (a : List (Vec3 R) × List (Vec3 R)) (i : Nat) =>
    match locationCoords.get? i with
    | none => a
    | some location =>
      let pos := h.preMult ⟨location.x, location.y, h.zero⟩ matrix
      let pos := h.convertLatLongHeightToXYZ em pos.y pos.x h.zero
      let normal := h.normalize (h.transform3x3 localToWorldTransform pos)
      let pos := h.preMult pos worldToLocalTransform
      let pos := h.vsub pos center
      (a.1.set i (h.toVec3f pos), a.2.set i (h.toVec3f normal))) arrays

/-- The function `GeometryPool::getOrCreateGeometry`: the geometry returned
and the pool after the call. -/
def getOrCreateGeometry {R M E S : Type} [DecidableEq R] (h : Host R M E S)
    (pool : GeometryPool R S) (tile : TerrainTile R M E) : Geometry R × GeometryPool R S :=
  let key := (createKeyForTile h tile h.defaultKey).2
  match pool.geometryMap.find key with
  | some geometry =>
    (geometry, { pool with numberSharedGeometry := pool.numberSharedGeometry + 1 })
  | none =>
    let nx : Int := key.nx
    let ny : Int := key.nx
    let numVertices := nx * ny
    let positions := gridPositions h nx ny
    let vertices := positions.map h.toVec3f
    let normals := positions.map fun _ => h.toVec3f ⟨h.zero, h.zero, h.one⟩
    let colours : List (Vec4 R) := [⟨h.toFloat h.one, h.toFloat h.one, h.toFloat h.one, h.toFloat h.one⟩]
    let texcoords := positions.map fun pos => (⟨h.toFloat pos.x, h.toFloat pos.y⟩ : Vec2 R)
    let locationCoords := positions.map fun pos => (⟨pos.x, pos.y⟩ : Vec2 R)
    let smallTile := decide (numVertices ≤ 16384)
    let elements := gridElements nx ny ⟨smallTile, []⟩
    let arrays := match computeMasterLocator tile with
      | none => (vertices, normals)
      | some locator =>
        let matrix := locator.transform
        let center := h.preMult ⟨h.half, h.half, h.zero⟩ matrix
        match locator.ellipsoidModel with
        | none => (vertices, normals)
        | some em =>
          if locator.coordinateSystemType = CoordinateSystemType.GEOCENTRIC then
            let localToWorldTransform :=
              h.computeLocalToWorldTransformFromLatLongHeight em center.y center.x center.z
            let center := h.convertLatLongHeightToXYZ em center.y center.x center.z
            let worldToLocalTransform := h.invert localToWorldTransform
            let center := h.preMult center worldToLocalTransform
            reprojectVertices h em matrix localToWorldTransform worldToLocalTransform center
              locationCoords numVertices (vertices, normals)
          else (vertices, normals)
    let geometry : Geometry R :=
      { ptr := pool.allocated
        vertices := arrays.1
        normals := arrays.2
        colours := colours
        texcoords := texcoords
        primitiveSets := [elements] }
    (geometry,
      { pool with
        geometryMap := pool.geometryMap.assign key geometry
        numberGeometryCreated := pool.numberGeometryCreated + 1
        allocated := pool.allocated + 1 })

/-- The function `GeometryPool::getOrCreateProgram`: the program returned and
the pool after the call. -/
def getOrCreateProgram {R M E S : Type} (h : Host R M E S) (pool : GeometryPool R S)
    (layerTypes : LayerTypes) : Program S × GeometryPool R S :=
  match pool.programMap.find layerTypes with
  | some program => (program, pool)
  | none =>
    let program : Program S := ⟨pool.allocated, []⟩
    let vertex_shader := h.readShaderFile "terrain.vert"
    let program := program.addShader vertex_shader
    let fragment_shader := h.readShaderFile "terrain.frag"
    let program := program.addShader fragment_shader
    (program,
      { pool with
        programMap := pool.programMap.assign layerTypes program
        allocated := pool.allocated + 1 })

/-! ## A concrete host -/

/-- An instance of `Host` in fixed-point arithmetic, for evaluating the
functions on concrete tiles: a number is an integer count of halves (so `1.0`
is 2 and `0.5` is 1), a matrix is a translation `(tx, ty)`, lengths are
taxicab lengths, the ellipsoid model and its conversions are trivial, and
there are no shader files. -/
def fixedHost : Host Int (Int × Int) Unit String where
  zero := 0
  one := 2
  half := 1
  ofInt := fun i => 2 * i
  mul := fun a b => a * b / 2
  div := fun a b => 2 * a / b
  add := fun a b => a + b
  sub := fun a b => a - b
  toFloat := fun a => a
  preMult := fun v m => ⟨v.x + m.1, v.y + m.2, v.z⟩
  length := fun v => v.x.natAbs + v.y.natAbs + v.z.natAbs
  identity := (0, 0)
  invert := fun m => (-m.1, -m.2)
  transform3x3 := fun _ v => v
  normalize := fun v => v
  computeLocalToWorldTransformFromLatLongHeight := fun _ lat long _ => (long, lat)
  convertLatLongHeightToXYZ := fun _ lat long height => ⟨long, lat, height⟩
  readShaderFile := fun _ => none
  defaultKey := ⟨0, 0, 0, 0, 0⟩

/-- The pool of a freshly constructed `GeometryPool`. -/
def GeometryPool.empty {R S : Type} : GeometryPool R S :=
  ⟨[], [], 0, 0, 0⟩

/-- A tile with the given elevation layer and colour layers, and dirty mask 1. -/
def mkTile {R M E : Type} (elevation : Option (Layer R M E))
    (colours : List (Option (Layer R M E))) : TerrainTile R M E :=
  ⟨elevation, colours, 1⟩

/-- A layer base without locator and image, at address `ptr`. -/
def bareBase {R M E : Type} (ptr : Nat) : LayerBase R M E :=
  ⟨ptr, none, none, FilterMode.LINEAR, FilterMode.LINEAR⟩

/-- A height-field layer at address `ptr` over a `columns` by `rows` height
field of zero heights, without locator. -/
def flatHeightFieldLayer (ptr columns rows : Nat) : Layer Int (Int × Int) Unit :=
  .heightFieldLayer (bareBase ptr) (some ⟨columns, rows, List.replicate (columns * rows) 0⟩)


/-! ## Sequences of calls on the pool -/

/-- A call that changes the pool: the two maps are private to `GeometryPool`
and written by `getOrCreateGeometry` and `getOrCreateProgram` alone. -/
inductive PoolCall (R M E : Type) where
  | geometry (tile : TerrainTile R M E)
  | program (layerTypes : LayerTypes)

/-- The pool after one call. -/
def PoolCall.run {R M E S : Type} [DecidableEq R] (h : Host R M E S)
    (pool : GeometryPool R S) : PoolCall R M E → GeometryPool R S
  | .geometry tile => (getOrCreateGeometry h pool tile).2
  | .program layerTypes => (getOrCreateProgram h pool layerTypes).2

/-- The pool after a sequence of calls. -/
def runCalls {R M E S : Type} [DecidableEq R] (h : Host R M E S)
    (pool : GeometryPool R S) (calls : List (PoolCall R M E)) : GeometryPool R S :=
  calls.foldl (PoolCall.run h) pool


/-! ## The layers of a tile -/

/-- The locator of a layer pointer: null for a null layer. -/
def locatorOf {R M E : Type} (layer : Option (Layer R M E)) : Option (Locator M E) :=
  layer.bind Layer.getLocator

/-- The terrain layers of a tile: the elevation layer and every colour layer. -/
def TerrainTile.terrainLayers {R M E : Type} (tile : TerrainTile R M E) :
    List (Option (Layer R M E)) :=
  tile.elevationLayer :: tile.colorLayers

/-- A locator with the given transform and coordinate system, without
ellipsoid model. -/
def plainLocator (transform : Int × Int) (cs : CoordinateSystemType) : Locator (Int × Int) Unit :=
  ⟨transform, cs, none⟩

/-- An image layer at address `ptr` with the given locator, without image. -/
def locatedImageLayer (ptr : Nat) (locator : Option (Locator (Int × Int) Unit)) :
    Layer Int (Int × Int) Unit :=
  .imageLayer ⟨ptr, locator, none, FilterMode.LINEAR, FilterMode.LINEAR⟩

/-! ## applyLayers -/

/-- The class of a texture object: `osg::Texture1D` or `osg::Texture2D`. -/
inductive TextureTarget where
  | TEXTURE_1D
  | TEXTURE_2D
  deriving DecidableEq, Repr

/-- A texture object as `applyLayers` sets it up.  A field that is `none` was
not set and keeps the default of the engine. -/
structure Texture (R : Type) where
  target : TextureTarget
  image : Image R
  minFilter : FilterMode
  magFilter : FilterMode
  maxAnisotropy : Option Nat
  resizeNonPowerOfTwoHint : Bool
  wrapS : Option WrapMode
  wrapT : Option WrapMode
  deriving DecidableEq, Repr

/-- A call made on an `osg::StateSet`: `setTextureAttributeAndModes(unit,
texture, ON)`, `addUniform(new osg::Uniform(name, value))` or
`setAttribute(program)`. -/
inductive StateSetCall (R S : Type) where
  | setTextureAttributeAndModes (textureUnit : Int) (texture : Texture R)
  | addUniform (name : String) (value : Int)
  | setAttribute (program : Program S)
  deriving DecidableEq, Repr

/-- An `osg::StateSet`, as the sequence of the calls made on it. -/
abbrev StateSet (R S : Type) := List (StateSetCall R S)

/-- The test `x==0 || (x & (x-1))` on a C `int`, converted to `bool`. -/
def notPowerOfTwo (x : Int) : Bool :=
  x == 0 || Int.land x (x - 1) != 0

/-- The texture built in `applyLayers` for an image layer that has no texture
yet (the body of `if (!texture2D)`). -/
def newImageTexture {R M E : Type} (colorLayer : LayerBase R M E) (image : Image R) :
    Texture R :=
  let texture2D : Texture R :=
    { target := TextureTarget.TEXTURE_2D
      image := image
      minFilter := colorLayer.minFilter
      magFilter := colorLayer.magFilter
      maxAnisotropy := some 16
      resizeNonPowerOfTwoHint := false
      wrapS := some WrapMode.CLAMP_TO_EDGE
      wrapT := some WrapMode.CLAMP_TO_EDGE }
  let mipMapping :=
    !(texture2D.minFilter == FilterMode.LINEAR || texture2D.minFilter == FilterMode.NEAREST)
  let s_NotPowerOfTwo := notPowerOfTwo image.s
  let t_NotPowerOfTwo := notPowerOfTwo image.t
  if mipMapping && (s_NotPowerOfTwo || t_NotPowerOfTwo) then
    { texture2D with minFilter := FilterMode.LINEAR }
  else texture2D

/-- The texture built in `applyLayers` for a contour layer that has no texture
yet (the body of `if (!texture1D)`). -/
def newContourTexture {R M E : Type} (colorLayer : LayerBase R M E) (image : Image R) :
    Texture R :=
  { target := TextureTarget.TEXTURE_1D
    image := image
    minFilter := FilterMode.NEAREST
    magFilter := colorLayer.magFilter
    maxAnisotropy := none
    resizeNonPowerOfTwoHint := false
    wrapS := none
    wrapT := none }

/-- The texture built in `applyLayers` for the height field of the elevation
layer: the image wraps the float array, with `s` the number of rows and `t`
the number of columns. -/
def newHeightFieldTexture {R : Type} (hf : HeightField R) : Texture R :=
  { target := TextureTarget.TEXTURE_2D
    image := ⟨hf.numRows, hf.numColumns, ImageData.luminance32F hf.heights⟩
    minFilter := FilterMode.NEAREST
    magFilter := FilterMode.NEAREST
    maxAnisotropy := none
    resizeNonPowerOfTwoHint := false
    wrapS := none
    wrapT := none }

/-- The local state of `applyLayers`: `layerToTextureMap` (keyed by the address
of the layer), `layerTypes` and the state set being written. -/
structure ApplyState (R S : Type) where
  layerToTextureMap : StdMap Nat (Texture R)
  layerTypes : LayerTypes
  stateset : StateSet R S

/-- The cast `dynamic_cast<T*>(layerToTextureMap[layer])`: the texture mapped
to the layer when it is of class `target`, else null. -/
def lookupTexture {R : Type} (m : StdMap Nat (Texture R)) (ptr : Nat) (target : TextureTarget) :
    Option (Texture R) :=
  match m.find ptr with
  | some texture => if texture.target = target then some texture else none
  | none => none

/-- The three statements that end each binding in `applyLayers`: the texture
is set on unit `layerTypes.size()`, the sampler uniform (called `name`,
followed by the unit number when `numbered`) gets that unit as value, and the
layer type is pushed.  The map `m` is `layerToTextureMap` at that point. -/
def bindTexture {R S : Type} (st : ApplyState R S) (m : StdMap Nat (Texture R))
    (texture : Texture R) (name : String) (numbered : Bool) (layerType : LayerType) :
    ApplyState R S :=
  let textureUnit : Int := st.layerTypes.length
  { layerToTextureMap := m
    layerTypes := st.layerTypes ++ [layerType]
    stateset := st.stateset ++
      [StateSetCall.setTextureAttributeAndModes textureUnit texture,
       StateSetCall.addUniform (if numbered then name ++ toString textureUnit else name)
         textureUnit] }

/-- The elevation part of `applyLayers` (the body of `if (hfl)`).  The result
is `none` when the height-field layer has no height field: the file
dereferences `hfl->getHeightField()` without a test. -/
def applyElevationLayer {R M E S : Type} (st : ApplyState R S) (tile : TerrainTile R M E) :
    Option (ApplyState R S) :=
  match tile.elevationLayer with
  | some (.heightFieldLayer hfl heightField) =>
    match lookupTexture st.layerToTextureMap hfl.ptr TextureTarget.TEXTURE_2D with
    | some texture2D =>
      some (bindTexture st st.layerToTextureMap texture2D "terrainTexture" false
        LayerType.HEIGHTFIELD_LAYER)
    | none =>
      match heightField with
      | none => none
      | some hf =>
        let texture2D := newHeightFieldTexture hf
        some (bindTexture st (st.layerToTextureMap.assign hfl.ptr texture2D) texture2D
          "terrainTexture" false LayerType.HEIGHTFIELD_LAYER)
  | _ => some st

/-- The layer a colour layer stands for after the `SwitchLayer` test of
`applyLayers`: the active layer of a switch layer (null when the active index
is out of range), the layer itself otherwise. -/
def resolveSwitch {R M E : Type} (colorLayer : Layer R M E) : Option (Layer R M E) :=
  match colorLayer with
  | .switchLayer _ activeLayer layers =>
    if activeLayer < 0 ∨ layers.length ≤ activeLayer.toNat then none
    else (layers.get? activeLayer.toNat).join
  | l => some l

/-- The loop body of `applyLayers` from `colorLayer->getImage()` on, for the
layer left after the `SwitchLayer` test; each `continue` returns the state
unchanged. -/
def applyResolvedLayer {R M E S : Type} (st : ApplyState R S) (colorLayer : Layer R M E) :
    ApplyState R S :=
  match colorLayer.base.image with
  | none => st
  | some image =>
    match colorLayer with
    | .imageLayer base =>
      match lookupTexture st.layerToTextureMap base.ptr TextureTarget.TEXTURE_2D with
      | some texture2D =>
        bindTexture st st.layerToTextureMap texture2D "colorTexture" true
          LayerType.COLOR_LAYER
      | none =>
        let texture2D := newImageTexture base image
        bindTexture st (st.layerToTextureMap.assign base.ptr texture2D) texture2D
          "colorTexture" true LayerType.COLOR_LAYER
    | .contourLayer base =>
      match lookupTexture st.layerToTextureMap base.ptr TextureTarget.TEXTURE_1D with
      | some texture1D =>
        bindTexture st st.layerToTextureMap texture1D "contourTexture" true
          LayerType.CONTOUR_LAYER
      | none =>
        let texture1D := newContourTexture base image
        bindTexture st (st.layerToTextureMap.assign base.ptr texture1D) texture1D
          "contourTexture" true LayerType.CONTOUR_LAYER
    | _ => st

/-- One turn of the loop over the colour layers in `applyLayers`; each
`continue` returns the state unchanged. -/
def applyColorLayer {R M E S : Type} (st : ApplyState R S) (entry : Option (Layer R M E)) :
    ApplyState R S :=
  match entry with
  | none => st
  | some colorLayer =>
    match resolveSwitch colorLayer with
    | none => st
    | some colorLayer => applyResolvedLayer st colorLayer

/-- The part of `applyLayers` before the call of `getOrCreateProgram`: the
local state after the elevation layer and the loop over the colour layers. -/
def collectLayers {R M E S : Type} (tile : TerrainTile R M E) (stateset : StateSet R S) :
    Option (ApplyState R S) :=
  match applyElevationLayer ⟨[], [], stateset⟩ tile with
  | none => none
  | some st => some (tile.colorLayers.foldl applyColorLayer st)

/-- The function `GeometryPool::applyLayers`: the state set and the pool after
the call, or `none` when the call dereferences a null height field.  The list
passed to `getOrCreateProgram` is `layerTypes` as `collectLayers` leaves it. -/
def applyLayers {R M E S : Type} (h : Host R M E S) (pool : GeometryPool R S)
    (tile : TerrainTile R M E) (stateset : StateSet R S) :
    Option (StateSet R S × GeometryPool R S) :=
  match collectLayers tile stateset with
  | none => none
  | some st =>
    let result := getOrCreateProgram h pool st.layerTypes
    some (st.stateset ++ [StateSetCall.setAttribute result.1], result.2)

/-! ## The binding of layers to texture units, as the specification words it -/

/-- The entry a layer contributes once a switch layer has been replaced by its
active layer: nothing without image, `COLOR_LAYER` for an image layer,
`CONTOUR_LAYER` for a contour layer, nothing for any other class. -/
def specBoundLayerType {R M E : Type} (layer : Layer R M E) : Option LayerType :=
  match layer.base.image with
  | none => none
  | some _ =>
    match layer with
    | .imageLayer _ => some LayerType.COLOR_LAYER
    | .contourLayer _ => some LayerType.CONTOUR_LAYER
    | _ => none

/-- The entry a colour layer of the tile contributes: nothing when it is null,
or a switch layer whose active index is negative or not below its number of
layers, or whose active layer is null. -/
def specColourLayerType {R M E : Type} (entry : Option (Layer R M E)) : Option LayerType :=
  match entry with
  | none => none
  | some (.switchLayer _ activeLayer layers) =>
    if activeLayer < 0 ∨ (layers.length : Int) ≤ activeLayer then none
    else
      match layers.get? activeLayer.toNat with
      | some (some active) => specBoundLayerType active
      | _ => none
  | some layer => specBoundLayerType layer

/-- The list of layer types of a tile: `HEIGHTFIELD_LAYER` if the elevation
layer is a height-field layer, then the entries of the colour layers in order. -/
def specLayerTypes {R M E : Type} (tile : TerrainTile R M E) : LayerTypes :=
  (match tile.elevationLayer with
    | some (.heightFieldLayer _ _) => [LayerType.HEIGHTFIELD_LAYER]
    | _ => [])
  ++ tile.colorLayers.filterMap specColourLayerType

/-- The name of the sampler uniform of entry `k`. -/
def specSamplerName (layerType : LayerType) (k : Nat) : String :=
  match layerType with
  | .HEIGHTFIELD_LAYER => "terrainTexture"
  | .COLOR_LAYER => "colorTexture" ++ toString k
  | .CONTOUR_LAYER => "contourTexture" ++ toString k

/-- The calls that bind a list of entries to consecutive texture units from
`k` on: each entry's texture is set on its unit, and its sampler uniform gets
the unit as value. -/
def specBindings {R S : Type} (k : Nat) : List (LayerType × Texture R) → StateSet R S
  | [] => []
  | (layerType, texture) :: rest =>
    StateSetCall.setTextureAttributeAndModes (k : Int) texture
      :: StateSetCall.addUniform (specSamplerName layerType k) (k : Int)
      :: specBindings (k + 1) rest

/-- What a part of `applyLayers` does to its local state when it binds the
layer types `added`: they are appended to `layerTypes`, and the state set
receives their bindings on the units that follow the ones in use. -/
def Binds {R S : Type} (st st2 : ApplyState R S) (added : LayerTypes) : Prop :=
  ∃ textures : List (Texture R), textures.length = added.length
    ∧ st2.layerTypes = st.layerTypes ++ added
    ∧ st2.stateset = st.stateset ++ specBindings st.layerTypes.length (added.zip textures)

/-- The texture units on which a state set had a texture set, in call order. -/
def textureUnits {R S : Type} (stateset : StateSet R S) : List Int :=
  stateset.filterMap fun call =>
    match call with
    | .setTextureAttributeAndModes textureUnit _ => some textureUnit
    | _ => none

/-- An image of `s` by `t` pixels. -/
def pixelImage (tag : Nat) (s t : Int) : Image Int :=
  ⟨s, t, ImageData.pixels tag⟩

/-- A layer base at address `ptr` with an 8 by 8 image and the given min
filter, without locator. -/
def imageBase (ptr : Nat) (minFilter : FilterMode) : LayerBase Int (Int × Int) Unit :=
  ⟨ptr, none, some (pixelImage ptr 8 8), minFilter, FilterMode.LINEAR⟩

/-- A tile with a 2 by 2 height field as elevation layer and seven colour
layers: an image layer, a null layer, a switch layer with active index 5 of 1,
a contour layer, an image layer without image, a switch layer whose active
layer is an image layer, and a height-field layer. -/
def layeredTile : TerrainTile Int (Int × Int) Unit :=
  mkTile (some (flatHeightFieldLayer 1 2 2))
    [some (.imageLayer (imageBase 2 FilterMode.LINEAR)),
     none,
     some (.switchLayer (bareBase 3) 5 [some (.imageLayer (imageBase 4 FilterMode.LINEAR))]),
     some (.contourLayer (imageBase 5 FilterMode.LINEAR)),
     some (.imageLayer (bareBase 6)),
     some (.switchLayer (bareBase 7) 0 [some (.imageLayer (imageBase 8 FilterMode.NEAREST))]),
     some (flatHeightFieldLayer 9 2 2)]

/-- A tile whose elevation layer is a height-field layer without height field. -/
def nullHeightFieldTile : TerrainTile Int (Int × Int) Unit :=
  mkTile (some (.heightFieldLayer (bareBase 1) none)) []

/-! ## getTileSubgraph and ShaderTerrain::init -/

/-- An `osg::BoundingBox`, as the sequence of points it was expanded by. -/
abbrev BoundingBox (R : Type) := List (Vec3 R)

/-- The class `HeightFieldDrawable`: the height field (may be null), the
geometry and the initial bound (`none` when `setInitialBound` was not called). -/
structure HeightFieldDrawable (R : Type) where
  heightField : Option (HeightField R)
  geometry : Geometry R
  initialBound : Option (BoundingBox R)

/-- An `osg::MatrixTransform` as `getTileSubgraph` builds it: its children,
its matrix and its state set. -/
structure MatrixTransform (R M S : Type) where
  children : List (HeightFieldDrawable R)
  matrix : M
  stateset : StateSet R S

/-- The pair of loops of `getTileSubgraph` that computes the initial bound:
the box is expanded by `v + n*h` for every sample, read at index `r*nc+c` of
the height, vertex and normal arrays.  The result is `none` when an index is
past the end of one of the three arrays. -/
def computeInitialBound {R M E S : Type} (h : Host R M E S) (hf : HeightField R)
    (vertices normals : List (Vec3 R)) : Option (BoundingBox R) :=
  let nr := hf.numRows
  let nc := hf.numColumns
  (List.range nr).foldlM (fun (bb : BoundingBox R) (r : Nat) =>
    (List.range nc).foldlM (fun (bb : BoundingBox R) (c : Nat) =>
      let i := r * nc + c
      match hf.heights.get? i, vertices.get? i, normals.get? i with
      | some height, some v, some n =>
        some (bb ++ [(⟨h.add v.x (h.mul n.x height), h.add v.y (h.mul n.y height),
          h.add v.z (h.mul n.z height)⟩ : Vec3 R)])
      | _, _, _ => none) bb) []

/-- The matrix `getTileSubgraph` gives the transform: the local-to-world
transform at the centre of the tile for a GEOCENTRIC locator with ellipsoid
model, the transform of the locator otherwise, and the default matrix without
locator. -/
def subgraphMatrix {R M E S : Type} (h : Host R M E S) (tile : TerrainTile R M E) : M :=
  match computeMasterLocator tile with
  | none => h.identity
  | some locator =>
    let matrix := locator.transform
    let center := h.preMult ⟨h.half, h.half, h.zero⟩ matrix
    match locator.ellipsoidModel with
    | none => locator.transform
    | some em =>
      if locator.coordinateSystemType = CoordinateSystemType.GEOCENTRIC then
        h.computeLocalToWorldTransformFromLatLongHeight em center.y center.x center.z
      else locator.transform

/-- The function `GeometryPool::getTileSubgraph`: the transform returned and
the pool after the call, or `none` when the call reads past the end of an
array or dereferences a null height field. -/
def getTileSubgraph {R M E S : Type} [DecidableEq R] (h : Host R M E S)
    (pool : GeometryPool R S) (tile : TerrainTile R M E) :
    Option (MatrixTransform R M S × GeometryPool R S) :=
  let created := getOrCreateGeometry h pool tile
  let geometry := created.1
  let pool := created.2
  let hf : Option (HeightField R) := match tile.elevationHeightField with
    | some hf => hf
    | none => none
  let matrix := subgraphMatrix h tile
  let bound : Option (Option (BoundingBox R)) := match hf with
    | some hf =>
      if geometry.vertices.length = geometry.normals.length then
        (computeInitialBound h hf geometry.vertices geometry.normals).map some
      else some none
    | none => some none
  match bound with
  | none => none
  | some initialBound =>
    match applyLayers h pool tile [] with
    | none => none
    | some (stateset, pool) =>
      some (⟨[⟨hf, geometry, initialBound⟩], matrix, stateset⟩, pool)

/-- The class `ShaderTerrain`: the tile the technique is attached to
(`_terrainTile`, may be null), the transform (`_transform`, may be null) and
the geometry pool. -/
structure ShaderTerrain (R M E S : Type) where
  terrainTile : Option (TerrainTile R M E)
  transform : Option (MatrixTransform R M S)
  geometryPool : GeometryPool R S

/-- The call `tile->setDirtyMask(mask)`. -/
def TerrainTile.setDirtyMask {R M E : Type} (tile : TerrainTile R M E) (mask : Int) :
    TerrainTile R M E :=
  { tile with dirtyMask := mask }

/-- The function `ShaderTerrain::init`: the technique, with its tile and pool,
after the call; `none` when `getTileSubgraph` fails. -/
def ShaderTerrain.init {R M E S : Type} [DecidableEq R] (h : Host R M E S)
    (self : ShaderTerrain R M E S) (dirtyMask : Int) (assumeMultiThreaded : Bool) :
    Option (ShaderTerrain R M E S) :=
  match self.terrainTile with
  | none => some self
  | some tile =>
    match getTileSubgraph h self.geometryPool tile with
    | none => none
    | some (transform, pool) =>
      some { terrainTile := some (tile.setDirtyMask 0)
             transform := some transform
             geometryPool := pool }

/-! ## Sharing of geometry between tiles -/

/-- The arrays of a geometry: everything but the address of the object.  The
element indices are in the primitive sets. -/
def Geometry.arrays {R : Type} (g : Geometry R) :
    List (Vec3 R) × List (Vec3 R) × List (Vec4 R) × List (Vec2 R) × List DrawElements :=
  (g.vertices, g.normals, g.colours, g.texcoords, g.primitiveSets)

/-- The tiles the specification calls non-geocentric: the master locator is
absent, or not GEOCENTRIC, or has no ellipsoid model. -/
def specNonGeocentric {R M E : Type} (tile : TerrainTile R M E) : Prop :=
  match computeMasterLocator tile with
  | none => True
  | some locator =>
    locator.coordinateSystemType ≠ CoordinateSystemType.GEOCENTRIC
      ∨ locator.ellipsoidModel.isNone = true

/-- A tile with a 2 by 2 height field whose colour layer 0 carries a PROJECTED
locator translating by `(5, 7)`, without ellipsoid model. -/
def projectedTile : TerrainTile Int (Int × Int) Unit :=
  mkTile (some (flatHeightFieldLayer 1 2 2))
    [some (locatedImageLayer 2 (some (plainLocator (5, 7) CoordinateSystemType.PROJECTED)))]

/-- A tile with a 2 by 2 height field whose colour layer 0 carries a GEOCENTRIC
locator translating by `(9, 0)`, without ellipsoid model. -/
def geocentricBareTile : TerrainTile Int (Int × Int) Unit :=
  mkTile (some (flatHeightFieldLayer 3 2 2))
    [some (locatedImageLayer 4 (some (plainLocator (9, 0) CoordinateSystemType.GEOCENTRIC)))]

end osgTerrain

namespace osgDot

/-! ## SimpleDotVisitor -/

/-- A scene-graph object (`osg::Node`, `osg::Group`, `osg::Geode`,
`osg::Drawable` or `osg::StateSet`) as the handlers read it: the results of
`className()` and `getName()`. -/
structure Object where
  className : String
  name : String
  deriving DecidableEq, Repr

/-- The streams a `SimpleDotVisitor` writes: the node buffer `_nodes` and the
edge buffer `_edges` of the base visitor, and `std::cout`. -/
structure SimpleDotVisitor where
  nodes : String
  edges : String
  cout : String
  deriving DecidableEq, Repr

/-- The text written by `std::endl`. -/
def endl : String := "\n"

/-- The function `SimpleDotVisitor::drawNode`. -/
def drawNode (self : SimpleDotVisitor) (id : Int) (shape style label color fillColor : String) :
    SimpleDotVisitor :=
  { self with
    cout := self.cout ++ "- SimpleDotVisitor::drawNode. ID = " ++ toString id ++ endl
    nodes := self.nodes ++ toString id ++
      "[shape=\"" ++ shape ++
      "\" ,label=\"" ++ label ++
      "\" ,style=\"" ++ style ++
      "\" ,color=\"" ++ color ++
      "\" ,fillColor=\"" ++ fillColor ++
      "\"]" ++ endl }

/-- The function `SimpleDotVisitor::drawEdge`. -/
def drawEdge (self : SimpleDotVisitor) (sourceId sinkId : Int) (style : String) :
    SimpleDotVisitor :=
  { self with
    cout := self.cout ++ "- SimpleDotVisitor::handle drawEdge. SourceID = " ++ toString sourceId
      ++ ", TargetID = " ++ toString sinkId ++ endl
    edges := self.edges
      ++ toString sourceId ++ ":top -> "
      ++ toString sinkId ++ ":top [style=\""
      ++ style ++ "\"];"
      ++ endl }

/-- The statement `std::cout << text << id << std::endl` that opens a
single-object handler. -/
def logId (self : SimpleDotVisitor) (text : String) (id : Int) : SimpleDotVisitor :=
  { self with cout := self.cout ++ text ++ toString id ++ endl }

/-- The statement that opens a parent/child handler: `text`, the parent id,
`separator`, the child id and `std::endl` go to `std::cout`. -/
def logIds (self : SimpleDotVisitor) (text : String) (parentID : Int) (separator : String)
    (childID : Int) : SimpleDotVisitor :=
  { self with
    cout := self.cout ++ text ++ toString parentID ++ separator ++ toString childID ++ endl }

/-- The label a handler builds in its `std::stringstream`: `"<top> "` and the
class text, then `"| "` and the name unless the name is empty. -/
def buildLabel (classText : String) (name : String) : String :=
  let label := "<top> " ++ classText
  if ¬ name = "" then label ++ "| " ++ name else label

/-- The handler `handle(osg::Node& node, int id)`. -/
def handleNode (self : SimpleDotVisitor) (node : Object) (id : Int) : SimpleDotVisitor :=
  let self := logId self "- SimpleDotVisitor::handle NODE. ID = " id
  drawNode self id "record" "solid" (buildLabel "Node" node.name) "black" "white"

/-- The handler `handle(osg::Geode& node, int id)`. -/
def handleGeode (self : SimpleDotVisitor) (node : Object) (id : Int) : SimpleDotVisitor :=
  let self := logId self "- SimpleDotVisitor::handle GEODE. ID = " id
  drawNode self id "record" "solid" (buildLabel node.className node.name) "brown" "white"

/-- The handler `handle(osg::Group& node, int id)`. -/
def handleGroup (self : SimpleDotVisitor) (node : Object) (id : Int) : SimpleDotVisitor :=
  let self := logId self "- SimpleDotVisitor::handle GROUP. ID = " id
  drawNode self id "record" "solid" (buildLabel node.className node.name) "black" "white"

/-- The handler `handle(osg::Group& parent, osg::Node& child, int parentID, int childID)`. -/
def handleGroupNode (self : SimpleDotVisitor) (parent child : Object) (parentID childID : Int) :
    SimpleDotVisitor :=
  let self := logIds self "- SimpleDotVisitor::handle GROUP-NODE. ParentID = " parentID
    ", ChildID = " childID
  drawEdge self parentID childID "setlinewidth(2)"

/-- The handler `handle(osg::StateSet& stateset, int id)`. -/
def handleStateSet (self : SimpleDotVisitor) (stateset : Object) (id : Int) : SimpleDotVisitor :=
  let self := logId self "- SimpleDotVisitor::handle SSET. ID = " id
  drawNode self id "Mrecord" "solid" (buildLabel stateset.className stateset.name) "green" "white"

/-- The handler `handle(osg::Node& node, osg::StateSet& stateset, int parentID, int childID)`. -/
def handleNodeStateSet (self : SimpleDotVisitor) (node stateset : Object)
    (parentID childID : Int) : SimpleDotVisitor :=
  let self := logIds self "- SimpleDotVisitor::handle NODE-SSET. ParentID = " parentID
    ", ChildID = " childID
  drawEdge self parentID childID "dashed"

/-- The handler `handle(osg::Drawable& drawable, int id)`. -/
def handleDrawable (self : SimpleDotVisitor) (drawable : Object) (id : Int) : SimpleDotVisitor :=
  let self := logId self "- SimpleDotVisitor::handle DRAWABLE. ID = " id
  drawNode self id "record" "solid" (buildLabel drawable.className drawable.name) "blue" "white"

/-- The handler `handle(osg::Geode& geode, osg::Drawable& drawable, int parentID, int childID)`. -/
def handleGeodeDrawable (self : SimpleDotVisitor) (geode drawable : Object)
    (parentID childID : Int) : SimpleDotVisitor :=
  let self := logIds self "- SimpleDotVisitor::handle GEODE-DRAWABLE. ParentID = " parentID
    ". ChildID = " childID
  drawEdge self parentID childID "dashed"

/-- The handler `handle(osg::Drawable& drawable, osg::StateSet& stateset, int parentID, int childID)`. -/
def handleDrawableStateSet (self : SimpleDotVisitor) (drawable stateset : Object)
    (parentID childID : Int) : SimpleDotVisitor :=
  let self := logIds self "- SimpleDotVisitor::handle DRAWABLE-SSET. ParentID = " parentID
    ", ChildID = " childID
  drawEdge self parentID childID "dashed"

/-! ## The DOT statements, as the specification words them -/

/-- The node statement `<id>[shape="S" ,label="L" ,style="solid" ,color="C"
,fillColor="white"]` followed by a newline. -/
def specNodeLine (id : Int) (shape label color : String) : String :=
  toString id ++ "[shape=\"" ++ shape ++ "\" ,label=\"" ++ label
    ++ "\" ,style=\"solid\" ,color=\"" ++ color ++ "\" ,fillColor=\"white\"]\n"

/-- The label `L`: `"<top> "` followed by the class name, followed by `"| "`
and the name if and only if the name is non-empty. -/
def specLabel (className name : String) : String :=
  if name = "" then "<top> " ++ className else "<top> " ++ className ++ "| " ++ name

/-- The edge statement `<parentID>:top -> <childID>:top [style="S"];` followed
by a newline. -/
def specEdgeLine (parentID childID : Int) (style : String) : String :=
  toString parentID ++ ":top -> " ++ toString childID ++ ":top [style=\"" ++ style ++ "\"];\n"

end osgDot

/-! # Theorems -/

namespace osgTerrain

/-! ## std::map lemmas -/

theorem StdMap.find_assign_self {K V : Type} [DecidableEq K] (m : StdMap K V) (k : K) (v : V) :
    StdMap.find (StdMap.assign m k v) k = some v := by
  induction m with
  | nil => simp [StdMap.assign, StdMap.find]
  | cons e rest ih =>
    obtain ⟨k', v'⟩ := e
    by_cases hk : k' = k
    · simp [StdMap.assign, StdMap.find, hk]
    · simp [StdMap.assign, StdMap.find, hk, ih]

theorem StdMap.find_assign_other {K V : Type} [DecidableEq K] (m : StdMap K V) (k k2 : K)
    (v : V) (hne : k2 ≠ k) :
    StdMap.find (StdMap.assign m k v) k2 = StdMap.find m k2 := by
  induction m with
  | nil =>
    have hne2 : ¬ k = k2 := fun e => hne e.symm
    simp [StdMap.assign, StdMap.find, hne2]
  | cons e rest ih =>
    obtain ⟨k', v'⟩ := e
    by_cases hk : k' = k
    · subst hk
      have hne2 : ¬ k' = k2 := fun e => hne e.symm
      simp [StdMap.assign, StdMap.find, hne2]
    · by_cases hk2 : k' = k2
      · subst hk2
        simp [StdMap.assign, StdMap.find, hk]
      · simp [StdMap.assign, StdMap.find, hk, hk2, ih]

theorem StdMap.assign_of_find_none {K V : Type} [DecidableEq K] (m : StdMap K V) (k : K)
    (v : V) (hnone : StdMap.find m k = none) :
    StdMap.assign m k v = m ++ [(k, v)] := by
  induction m with
  | nil => simp [StdMap.assign]
  | cons e rest ih =>
    obtain ⟨k', v'⟩ := e
    by_cases hk : k' = k
    · simp [StdMap.find, hk] at hnone
    · simp only [StdMap.find, hk, if_false] at hnone
      simp [StdMap.assign, hk, ih hnone]

/-! ## getOrCreateGeometry -/

theorem getOrCreateGeometry_of_find {R M E S : Type} [DecidableEq R] (h : Host R M E S)
    (pool : GeometryPool R S) (tile : TerrainTile R M E) (g : Geometry R)
    (hfind : pool.geometryMap.find (createKeyForTile h tile h.defaultKey).2 = some g) :
    getOrCreateGeometry h pool tile
      = (g, { pool with numberSharedGeometry := pool.numberSharedGeometry + 1 }) := by
  unfold getOrCreateGeometry
  simp only [hfind]

theorem getOrCreateGeometry_find {R M E S : Type} [DecidableEq R] (h : Host R M E S)
    (pool : GeometryPool R S) (tile : TerrainTile R M E) :
    (getOrCreateGeometry h pool tile).2.geometryMap.find (createKeyForTile h tile h.defaultKey).2
      = some (getOrCreateGeometry h pool tile).1 := by
  cases hfind : pool.geometryMap.find (createKeyForTile h tile h.defaultKey).2 with
  | some g => rw [getOrCreateGeometry_of_find h pool tile g hfind]; exact hfind
  | none =>
    unfold getOrCreateGeometry
    simp only [hfind]
    exact StdMap.find_assign_self _ _ _

/-- C1: for every pool and every two tiles with the same key from
`createKeyForTile`, `getOrCreateGeometry` for the first and then for the second
returns the same geometry object, and the second call leaves the geometry map
as the first call left it. -/
theorem getOrCreateGeometry_shares_by_key {R M E S : Type} [DecidableEq R]
    (h : Host R M E S) (pool : GeometryPool R S) (tile1 tile2 : TerrainTile R M E)
    (hkey : (createKeyForTile h tile1 h.defaultKey).2 = (createKeyForTile h tile2 h.defaultKey).2) :
    (getOrCreateGeometry h (getOrCreateGeometry h pool tile1).2 tile2).1
        = (getOrCreateGeometry h pool tile1).1
      ∧ (getOrCreateGeometry h (getOrCreateGeometry h pool tile1).2 tile2).2.geometryMap
        = (getOrCreateGeometry h pool tile1).2.geometryMap := by
  have hfind := getOrCreateGeometry_find h pool tile1
  rw [hkey] at hfind
  rw [getOrCreateGeometry_of_find h _ tile2 _ hfind]
  exact ⟨rfl, rfl⟩

/-- C1 at two different tiles with 2 by 2 height fields and an empty pool. -/
theorem getOrCreateGeometry_shares_by_key_witness :
    (createKeyForTile fixedHost (mkTile (some (flatHeightFieldLayer 1 2 2)) []) fixedHost.defaultKey).2
        = (createKeyForTile fixedHost (mkTile (some (flatHeightFieldLayer 2 2 2)) [none])
            fixedHost.defaultKey).2
      ∧ ((getOrCreateGeometry fixedHost
            (getOrCreateGeometry fixedHost GeometryPool.empty
              (mkTile (some (flatHeightFieldLayer 1 2 2)) [])).2
            (mkTile (some (flatHeightFieldLayer 2 2 2)) [none])).1
          = (getOrCreateGeometry fixedHost GeometryPool.empty
              (mkTile (some (flatHeightFieldLayer 1 2 2)) [])).1
        ∧ (getOrCreateGeometry fixedHost
            (getOrCreateGeometry fixedHost GeometryPool.empty
              (mkTile (some (flatHeightFieldLayer 1 2 2)) [])).2
            (mkTile (some (flatHeightFieldLayer 2 2 2)) [none])).2.geometryMap
          = (getOrCreateGeometry fixedHost GeometryPool.empty
              (mkTile (some (flatHeightFieldLayer 1 2 2)) [])).2.geometryMap) :=
  ⟨by decide, getOrCreateGeometry_shares_by_key fixedHost GeometryPool.empty
    (mkTile (some (flatHeightFieldLayer 1 2 2)) [])
    (mkTile (some (flatHeightFieldLayer 2 2 2)) [none]) (by decide)⟩

/-! ## getOrCreateProgram -/

theorem getOrCreateProgram_of_find {R M E S : Type} (h : Host R M E S)
    (pool : GeometryPool R S) (layerTypes : LayerTypes) (p : Program S)
    (hfind : pool.programMap.find layerTypes = some p) :
    getOrCreateProgram h pool layerTypes = (p, pool) := by
  unfold getOrCreateProgram
  simp only [hfind]

theorem getOrCreateProgram_find {R M E S : Type} (h : Host R M E S)
    (pool : GeometryPool R S) (layerTypes : LayerTypes) :
    (getOrCreateProgram h pool layerTypes).2.programMap.find layerTypes
      = some (getOrCreateProgram h pool layerTypes).1 := by
  cases hfind : pool.programMap.find layerTypes with
  | some p => rw [getOrCreateProgram_of_find h pool layerTypes p hfind]; exact hfind
  | none =>
    unfold getOrCreateProgram
    simp only [hfind]
    exact StdMap.find_assign_self _ _ _

theorem getOrCreateProgram_keeps {R M E S : Type} (h : Host R M E S)
    (pool : GeometryPool R S) (layerTypes other : LayerTypes) (p : Program S)
    (hfind : pool.programMap.find layerTypes = some p) :
    (getOrCreateProgram h pool other).2.programMap.find layerTypes = some p := by
  cases hother : pool.programMap.find other with
  | some q => rw [getOrCreateProgram_of_find h pool other q hother]; exact hfind
  | none =>
    have hne : layerTypes ≠ other := by
      intro e
      rw [e, hother] at hfind
      exact Option.noConfusion hfind
    unfold getOrCreateProgram
    simp only [hother]
    rw [StdMap.find_assign_other _ _ _ _ hne]
    exact hfind

theorem getOrCreateGeometry_programMap {R M E S : Type} [DecidableEq R] (h : Host R M E S)
    (pool : GeometryPool R S) (tile : TerrainTile R M E) :
    (getOrCreateGeometry h pool tile).2.programMap = pool.programMap := by
  unfold getOrCreateGeometry
  simp only []
  split <;> rfl

theorem runCalls_keeps {R M E S : Type} [DecidableEq R] (h : Host R M E S)
    (calls : List (PoolCall R M E)) (pool : GeometryPool R S) (layerTypes : LayerTypes)
    (p : Program S) (hfind : pool.programMap.find layerTypes = some p) :
    (runCalls h pool calls).programMap.find layerTypes = some p := by
  induction calls generalizing pool with
  | nil => exact hfind
  | cons call rest ih =>
    show (runCalls h (PoolCall.run h pool call) rest).programMap.find layerTypes = some p
    apply ih
    cases call with
    | geometry tile =>
      show (getOrCreateGeometry h pool tile).2.programMap.find layerTypes = some p
      rw [getOrCreateGeometry_programMap]
      exact hfind
    | program other => exact getOrCreateProgram_keeps h pool layerTypes other p hfind

/-- C3: after one call of `getOrCreateProgram` with a list of layer types,
every later call with that list (whatever calls on the pool come in between)
returns the same program object and leaves the pool, its program map
included, unchanged; and a call with a list that is not yet a key of the
program map adds one entry, under that list and holding the program returned,
and changes no other entry. -/
theorem getOrCreateProgram_caches {R M E S : Type} [DecidableEq R] (h : Host R M E S)
    (pool : GeometryPool R S) (layerTypes : LayerTypes) (calls : List (PoolCall R M E)) :
    getOrCreateProgram h (runCalls h (getOrCreateProgram h pool layerTypes).2 calls) layerTypes
        = ((getOrCreateProgram h pool layerTypes).1,
            runCalls h (getOrCreateProgram h pool layerTypes).2 calls)
      ∧ (pool.programMap.find layerTypes = none →
          (getOrCreateProgram h pool layerTypes).2.programMap
              = pool.programMap ++ [(layerTypes, (getOrCreateProgram h pool layerTypes).1)]
            ∧ ∀ other : LayerTypes, other ≠ layerTypes →
                (getOrCreateProgram h pool layerTypes).2.programMap.find other
                  = pool.programMap.find other) := by
  refine ⟨?_, ?_⟩
  · exact getOrCreateProgram_of_find h _ layerTypes _
      (runCalls_keeps h calls _ layerTypes _ (getOrCreateProgram_find h pool layerTypes))
  · intro hnone
    unfold getOrCreateProgram
    simp only [hnone]
    exact ⟨StdMap.assign_of_find_none _ _ _ hnone,
      fun other hne => StdMap.find_assign_other _ _ _ _ hne⟩

/-- C3 at the list `[COLOR_LAYER]` on an empty pool, with a call for another
list and a call of `getOrCreateGeometry` in between. -/
theorem getOrCreateProgram_caches_witness :
    (GeometryPool.empty : GeometryPool Int String).programMap.find [LayerType.COLOR_LAYER] = none
      ∧ (getOrCreateProgram fixedHost GeometryPool.empty [LayerType.COLOR_LAYER]).2.programMap
          = [([LayerType.COLOR_LAYER], ⟨0, []⟩)]
      ∧ getOrCreateProgram fixedHost
          (runCalls fixedHost (getOrCreateProgram fixedHost GeometryPool.empty [LayerType.COLOR_LAYER]).2
            [PoolCall.program [], PoolCall.geometry (mkTile (some (flatHeightFieldLayer 1 2 2)) [])])
          [LayerType.COLOR_LAYER]
        = ((getOrCreateProgram fixedHost GeometryPool.empty [LayerType.COLOR_LAYER]).1,
            runCalls fixedHost (getOrCreateProgram fixedHost GeometryPool.empty [LayerType.COLOR_LAYER]).2
              [PoolCall.program [], PoolCall.geometry (mkTile (some (flatHeightFieldLayer 1 2 2)) [])]) :=
  ⟨by decide,
    ((getOrCreateProgram_caches fixedHost GeometryPool.empty [LayerType.COLOR_LAYER] []).2
      (by decide)).1,
    (getOrCreateProgram_caches fixedHost GeometryPool.empty [LayerType.COLOR_LAYER]
      [PoolCall.program [], PoolCall.geometry (mkTile (some (flatHeightFieldLayer 1 2 2)) [])]).1⟩

/-! ## The size of a created geometry -/

theorem gridPositions_length {R M E S : Type} (h : Host R M E S) (nx ny : Int) :
    (gridPositions h nx ny).length = ny.toNat * nx.toNat := by
  unfold gridPositions
  simp only []
  generalize ny.toNat = n
  induction n with
  | zero => simp
  | succ n ih =>
    rw [List.range_succ, List.flatMap_append, List.length_append, ih]
    simp [Nat.succ_mul]

theorem reprojectVertices_length {R M E S : Type} (h : Host R M E S) (em : E) (matrix : M)
    (localToWorldTransform worldToLocalTransform : M) (center : Vec3 R)
    (locationCoords : List (Vec2 R)) (numVertices : Int)
    (arrays : List (Vec3 R) × List (Vec3 R)) :
    (reprojectVertices h em matrix localToWorldTransform worldToLocalTransform center
        locationCoords numVertices arrays).1.length = arrays.1.length
      ∧ (reprojectVertices h em matrix localToWorldTransform worldToLocalTransform center
        locationCoords numVertices arrays).2.length = arrays.2.length := by
  unfold reprojectVertices
  generalize List.range numVertices.toNat = is
  induction is generalizing arrays with
  | nil => exact ⟨rfl, rfl⟩
  | cons i rest ih =>
    rw [List.foldl_cons]
    cases hloc : locationCoords.get? i with
    | none => simpa [hloc] using ih arrays
    | some location =>
      simp only [hloc]
      refine ⟨(ih _).1.trans ?_, (ih _).2.trans ?_⟩ <;> simp

/-- The arrays of a geometry that `getOrCreateGeometry` creates have
`key.nx * key.nx` entries each: the row count `key.ny` is not read. -/
theorem getOrCreateGeometry_created_sizes {R M E S : Type} [DecidableEq R] (h : Host R M E S)
    (pool : GeometryPool R S) (tile : TerrainTile R M E)
    (hnone : pool.geometryMap.find (createKeyForTile h tile h.defaultKey).2 = none) :
    (getOrCreateGeometry h pool tile).1.vertices.length
        = (createKeyForTile h tile h.defaultKey).2.nx * (createKeyForTile h tile h.defaultKey).2.nx
      ∧ (getOrCreateGeometry h pool tile).1.normals.length
        = (createKeyForTile h tile h.defaultKey).2.nx * (createKeyForTile h tile h.defaultKey).2.nx
      ∧ (getOrCreateGeometry h pool tile).1.texcoords.length
        = (createKeyForTile h tile h.defaultKey).2.nx * (createKeyForTile h tile h.defaultKey).2.nx := by
  unfold getOrCreateGeometry
  simp only [hnone]
  refine ⟨?_, ?_, ?_⟩
  · split
    · simp [gridPositions_length]
    · split
      · simp [gridPositions_length]
      · split
        · rw [(reprojectVertices_length _ _ _ _ _ _ _ _ _).1]
          simp [gridPositions_length]
        · simp [gridPositions_length]
  · split
    · simp [gridPositions_length]
    · split
      · simp [gridPositions_length]
      · split
        · rw [(reprojectVertices_length _ _ _ _ _ _ _ _ _).2]
          simp [gridPositions_length]
        · simp [gridPositions_length]
  · simp [gridPositions_length]

/-! ## computeMasterLocator -/

/-- C4, as stated, fails: in a tile without elevation layer whose colour layer
0 has no locator and whose colour layer 1 has one, a terrain layer has a
locator and `computeMasterLocator` returns null. -/
theorem computeMasterLocator_ignores_later_colour_layers :
    ¬ (computeMasterLocator
          (mkTile none [some (locatedImageLayer 1 none),
            some (locatedImageLayer 2 (some (plainLocator (0, 0) CoordinateSystemType.PROJECTED)))])
          = none
        ↔ ∀ layer ∈ (mkTile none [some (locatedImageLayer 1 none),
            some (locatedImageLayer 2
              (some (plainLocator (0, 0) CoordinateSystemType.PROJECTED)))]).terrainLayers,
            locatorOf layer = none) := by
  decide

/-- C4, amended: `computeMasterLocator` returns the locator of the elevation
layer when that layer has one, and otherwise whatever colour layer 0 has; so
it returns null if and only if neither the elevation layer nor colour layer 0
has a locator, and colour layers past the first are not consulted. -/
theorem computeMasterLocator_elevation_or_first_colour {R M E : Type}
    (tile : TerrainTile R M E) :
    (computeMasterLocator tile = none
        ↔ locatorOf tile.elevationLayer = none ∧ locatorOf (tile.getColorLayer 0) = none)
      ∧ computeMasterLocator tile
        = (match locatorOf tile.elevationLayer with
          | some locator => some locator
          | none => locatorOf (tile.getColorLayer 0))
      ∧ ∀ elevation first (rest rest2 : List (Option (Layer R M E))) (mask mask2 : Int),
          computeMasterLocator ⟨elevation, first :: rest, mask⟩
            = computeMasterLocator ⟨elevation, first :: rest2, mask2⟩ := by
  have hval : computeMasterLocator tile
      = (match locatorOf tile.elevationLayer with
        | some locator => some locator
        | none => locatorOf (tile.getColorLayer 0)) := by
    unfold computeMasterLocator locatorOf
    cases tile.elevationLayer with
    | none =>
      cases tile.getColorLayer 0 with
      | none => rfl
      | some c => cases hc : c.getLocator <;> simp [hc]
    | some e =>
      cases he : e.getLocator with
      | some l => simp [he]
      | none =>
        cases tile.getColorLayer 0 with
        | none => simp [he]
        | some c => cases hc : c.getLocator <;> simp [he, hc]
  refine ⟨?_, hval, ?_⟩
  · rw [hval]
    cases locatorOf tile.elevationLayer with
    | none => simp
    | some l => simp
  · intro elevation first rest rest2 mask mask2
    rfl

/-! ## createKeyForTile -/

/-- C5: for a tile with master locator `locator` and any key passed in,
`createKeyForTile` sets `key.y` to the y coordinate of `(0,0,0) * transform`
(as `static_cast<float>` returns it) when the coordinate system is GEOCENTRIC,
and to the literal `0.0` for every other coordinate system, whatever the
transform. -/
theorem createKeyForTile_y {R M E S : Type} (h : Host R M E S) (tile : TerrainTile R M E)
    (key : GeometryKey R) (locator : Locator M E)
    (hmaster : computeMasterLocator tile = some locator) :
    (locator.coordinateSystemType = CoordinateSystemType.GEOCENTRIC →
        (createKeyForTile h tile key).2.y
          = h.toFloat (h.preMult ⟨h.zero, h.zero, h.zero⟩ locator.transform).y)
      ∧ (locator.coordinateSystemType ≠ CoordinateSystemType.GEOCENTRIC →
        (createKeyForTile h tile key).2.y = h.zero) := by
  unfold createKeyForTile
  simp only [hmaster]
  constructor
  · intro hgeo
    simp only [hgeo, if_true]
    split <;> rfl
  · intro hgeo
    simp only [hgeo, if_false]
    split <;> rfl

/-- C5 at a tile whose colour layer 0 has a GEOCENTRIC locator translating by
`(5, 7)`, and at the same tile with a PROJECTED locator: `key.y` is 7 and 0. -/
theorem createKeyForTile_y_witness :
    computeMasterLocator
        (mkTile none [some (locatedImageLayer 1
          (some (plainLocator (5, 7) CoordinateSystemType.GEOCENTRIC)))])
        = some (plainLocator (5, 7) CoordinateSystemType.GEOCENTRIC)
      ∧ (createKeyForTile fixedHost
          (mkTile none [some (locatedImageLayer 1
            (some (plainLocator (5, 7) CoordinateSystemType.GEOCENTRIC)))])
          fixedHost.defaultKey).2.y = 7
      ∧ (createKeyForTile fixedHost
          (mkTile none [some (locatedImageLayer 1
            (some (plainLocator (5, 7) CoordinateSystemType.PROJECTED)))])
          fixedHost.defaultKey).2.y = 0 :=
  ⟨by decide,
    (createKeyForTile_y fixedHost _ fixedHost.defaultKey
      (plainLocator (5, 7) CoordinateSystemType.GEOCENTRIC) (by decide)).1 (by decide),
    (createKeyForTile_y fixedHost _ fixedHost.defaultKey
      (plainLocator (5, 7) CoordinateSystemType.PROJECTED) (by decide)).2 (by decide)⟩

/-! ## applyLayers -/

theorem toString_natCast (k : Nat) : toString ((k : Nat) : Int) = toString k := rfl

theorem specBindings_append {R S : Type} (k : Nat) (a b : List (LayerType × Texture R)) :
    (specBindings k (a ++ b) : StateSet R S)
      = specBindings k a ++ specBindings (k + a.length) b := by
  induction a generalizing k with
  | nil => simp [specBindings]
  | cons e rest ih =>
    obtain ⟨layerType, texture⟩ := e
    simp [specBindings, ih, Nat.add_assoc, Nat.add_comm 1]

theorem Binds.refl {R S : Type} (st : ApplyState R S) : Binds st st [] :=
  ⟨[], rfl, by simp, by simp [specBindings]⟩

theorem Binds.trans {R S : Type} {st st2 st3 : ApplyState R S} {a b : LayerTypes}
    (h1 : Binds st st2 a) (h2 : Binds st2 st3 b) : Binds st st3 (a ++ b) := by
  obtain ⟨t1, hl1, hty1, hss1⟩ := h1
  obtain ⟨t2, hl2, hty2, hss2⟩ := h2
  refine ⟨t1 ++ t2, by simp [hl1, hl2], by simp [hty2, hty1], ?_⟩
  rw [hss2, hss1, hty1, List.zip_append hl1.symm, specBindings_append]
  simp [hl1]

theorem bindTexture_binds {R S : Type} (st : ApplyState R S) (m : StdMap Nat (Texture R))
    (texture : Texture R) (name : String) (numbered : Bool) (layerType : LayerType)
    (hname : (if numbered then name ++ toString st.layerTypes.length else name)
      = specSamplerName layerType st.layerTypes.length) :
    Binds st (bindTexture st m texture name numbered layerType) [layerType] := by
  refine ⟨[texture], rfl, rfl, ?_⟩
  unfold bindTexture
  simp only [specBindings, toString_natCast, hname, List.zip_cons_cons, List.zip_nil_right]

theorem applyResolvedLayer_binds {R M E S : Type} (st : ApplyState R S) (layer : Layer R M E) :
    Binds st (applyResolvedLayer st layer) (specBoundLayerType layer).toList := by
  unfold applyResolvedLayer specBoundLayerType
  cases himg : layer.base.image with
  | none => exact Binds.refl st
  | some image =>
    cases layer with
    | imageLayer base =>
      simp only [Option.toList]
      split <;> exact bindTexture_binds _ _ _ _ _ _ rfl
    | contourLayer base =>
      simp only [Option.toList]
      split <;> exact bindTexture_binds _ _ _ _ _ _ rfl
    | heightFieldLayer base hf => exact Binds.refl st
    | switchLayer base active layers => exact Binds.refl st
    | otherLayer base => exact Binds.refl st

theorem specColourLayerType_eq {R M E : Type} (entry : Option (Layer R M E)) :
    specColourLayerType entry = (entry.bind resolveSwitch).bind specBoundLayerType := by
  cases entry with
  | none => rfl
  | some layer =>
    cases layer with
    | switchLayer base active layers =>
      simp only [specColourLayerType, resolveSwitch, Option.bind]
      by_cases hneg : active < 0
      · simp [hneg]
      · have hcond : ((layers.length : Int) ≤ active) ↔ (layers.length ≤ active.toNat) := by
          omega
        by_cases hlen : layers.length ≤ active.toNat
        · simp [hneg, hlen, hcond]
        · simp only [hneg, hlen, hcond, or_self, if_false]
          cases hget : layers.get? active.toNat with
          | none => rfl
          | some l => cases l <;> rfl
    | heightFieldLayer base hf => rfl
    | imageLayer base => rfl
    | contourLayer base => rfl
    | otherLayer base => rfl

theorem applyColorLayer_binds {R M E S : Type} (st : ApplyState R S)
    (entry : Option (Layer R M E)) :
    Binds st (applyColorLayer st entry) (specColourLayerType entry).toList := by
  rw [specColourLayerType_eq]
  unfold applyColorLayer
  cases entry with
  | none => exact Binds.refl st
  | some layer =>
    simp only [Option.bind]
    cases hres : resolveSwitch layer with
    | none => exact Binds.refl st
    | some resolved => exact applyResolvedLayer_binds st resolved

theorem foldl_applyColorLayer_binds {R M E S : Type} (entries : List (Option (Layer R M E)))
    (st : ApplyState R S) :
    Binds st (entries.foldl applyColorLayer st) (entries.filterMap specColourLayerType) := by
  induction entries generalizing st with
  | nil => exact Binds.refl st
  | cons entry rest ih =>
    have hstep := applyColorLayer_binds st entry
    have hrest := ih (applyColorLayer st entry)
    have hcat : (entry :: rest).filterMap specColourLayerType
        = (specColourLayerType entry).toList ++ rest.filterMap specColourLayerType := by
      cases hspec : specColourLayerType entry <;> simp [List.filterMap_cons, hspec]
    rw [hcat]
    exact Binds.trans hstep hrest

theorem textureUnits_append {R S : Type} (a b : StateSet R S) :
    textureUnits (a ++ b) = textureUnits a ++ textureUnits b := by
  simp [textureUnits]

theorem applyElevationLayer_binds {R M E S : Type} (tile : TerrainTile R M E)
    (stateset : StateSet R S) (hhf : tile.elevationHeightField ≠ some none) :
    ∃ st : ApplyState R S, applyElevationLayer ⟨[], [], stateset⟩ tile = some st
      ∧ Binds ⟨[], [], stateset⟩ st
        (match tile.elevationLayer with
          | some (.heightFieldLayer _ _) => [LayerType.HEIGHTFIELD_LAYER]
          | _ => []) := by
  unfold applyElevationLayer
  cases helev : tile.elevationLayer with
  | none => exact ⟨_, rfl, Binds.refl _⟩
  | some layer =>
    cases layer with
    | heightFieldLayer base hf =>
      cases hf with
      | none => simp [TerrainTile.elevationHeightField, helev] at hhf
      | some hf =>
        exact ⟨_, rfl, bindTexture_binds _ _ _ _ _ _ rfl⟩
    | imageLayer base => exact ⟨_, rfl, Binds.refl _⟩
    | contourLayer base => exact ⟨_, rfl, Binds.refl _⟩
    | switchLayer base active layers => exact ⟨_, rfl, Binds.refl _⟩
    | otherLayer base => exact ⟨_, rfl, Binds.refl _⟩

theorem textureUnits_specBindings {R S : Type} (k : Nat) (l : List (LayerType × Texture R)) :
    textureUnits (specBindings k l : StateSet R S)
      = (List.range' k l.length).map Int.ofNat := by
  induction l generalizing k with
  | nil => rfl
  | cons e rest ih =>
    obtain ⟨layerType, texture⟩ := e
    simp [specBindings, textureUnits, List.range'] at ih ⊢
    exact ih (k + 1)

/-- The binding order of `applyLayers` on the tiles on which it runs to its
call of `getOrCreateProgram` (a height-field elevation layer has a height
field): the list passed is `specLayerTypes tile`, and the calls added to the
state set are, for the k-th entry, a texture set on unit k and the sampler
uniform (`terrainTexture`, `colorTexture<k>` or `contourTexture<k>`) with value
k, followed by `setAttribute` of the program; the units written are 0 to n-1
in order, each once.  Which texture object is set on a unit is not stated
here. -/
theorem applyLayers_binds_consecutive_units {R M E S : Type} (h : Host R M E S)
    (pool : GeometryPool R S) (tile : TerrainTile R M E) (stateset : StateSet R S)
    (hhf : tile.elevationHeightField ≠ some none) :
    ∃ (st : ApplyState R S) (textures : List (Texture R)),
      collectLayers tile stateset = some st
      ∧ st.layerTypes = specLayerTypes tile
      ∧ textures.length = (specLayerTypes tile).length
      ∧ st.stateset = stateset ++ specBindings 0 ((specLayerTypes tile).zip textures)
      ∧ textureUnits st.stateset = textureUnits stateset
          ++ (List.range (specLayerTypes tile).length).map Int.ofNat
      ∧ applyLayers h pool tile stateset
        = some (st.stateset
            ++ [StateSetCall.setAttribute (getOrCreateProgram h pool (specLayerTypes tile)).1],
          (getOrCreateProgram h pool (specLayerTypes tile)).2) := by
  obtain ⟨st1, hst1, hb1⟩ := applyElevationLayer_binds tile stateset hhf
  have hb2 := foldl_applyColorLayer_binds tile.colorLayers st1
  obtain ⟨textures, hlen, hty, hss⟩ := Binds.trans hb1 hb2
  have hcollect : collectLayers tile stateset
      = some (tile.colorLayers.foldl applyColorLayer st1) := by
    unfold collectLayers
    rw [hst1]
  have hty2 : (tile.colorLayers.foldl applyColorLayer st1).layerTypes = specLayerTypes tile := by
    rw [hty]
    simp [specLayerTypes]
  refine ⟨_, textures, hcollect, hty2, ?_, ?_, ?_, ?_⟩
  · rw [hlen]; simp [specLayerTypes]
  · rw [hss]; simp [specLayerTypes]
  · rw [hss, textureUnits_append, textureUnits_specBindings]
    simp only [List.nil_append, List.length_nil, List.range_eq_range']
    congr 3
    rw [List.length_zip, hlen, Nat.min_self]
    simp [specLayerTypes]
  · unfold applyLayers
    rw [hcollect]
    simp only [hty2]

/-- C6 at a tile whose elevation layer is a height-field layer without height
field, on an empty pool.  The list of the claim is `[HEIGHTFIELD_LAYER]`, to be
bound on unit 0.  `createKeyForTile` tests the height field for null and
returns, leaving the key as it was, and `getOrCreateGeometry` returns a
geometry; `applyLayers` dereferences the null height field before anything is
bound, so no state set comes back and no list reaches `getOrCreateProgram`. -/
theorem applyLayers_null_height_field :
    specLayerTypes nullHeightFieldTile = [LayerType.HEIGHTFIELD_LAYER]
      ∧ createKeyForTile fixedHost nullHeightFieldTile fixedHost.defaultKey
        = (true, fixedHost.defaultKey)
      ∧ (getOrCreateGeometry fixedHost GeometryPool.empty nullHeightFieldTile).1.vertices = []
      ∧ applyLayers fixedHost GeometryPool.empty nullHeightFieldTile [] = none
      ∧ ¬ ∃ st : ApplyState Int String,
          collectLayers nullHeightFieldTile [] = some st
            ∧ st.layerTypes = specLayerTypes nullHeightFieldTile := by
  refine ⟨rfl, by decide, by decide, rfl, ?_⟩
  rintro ⟨st, hst, -⟩
  have hnone : collectLayers nullHeightFieldTile ([] : StateSet Int String) = none := rfl
  rw [hnone] at hst
  exact Option.noConfusion hst

/-- The binding order at `layeredTile`: the list is height field, colour,
contour, colour, on units 0 to 3. -/
theorem applyLayers_binds_consecutive_units_witness :
    layeredTile.elevationHeightField ≠ some none
      ∧ specLayerTypes layeredTile
        = [LayerType.HEIGHTFIELD_LAYER, LayerType.COLOR_LAYER, LayerType.CONTOUR_LAYER,
            LayerType.COLOR_LAYER]
      ∧ ∃ st : ApplyState Int String,
          collectLayers layeredTile [] = some st
            ∧ st.layerTypes = specLayerTypes layeredTile
            ∧ textureUnits st.stateset = [0, 1, 2, 3] :=
  ⟨by decide, by decide,
    match applyLayers_binds_consecutive_units fixedHost GeometryPool.empty layeredTile []
      (by decide) with
    | ⟨st, _, hcollect, htypes, _, _, hunits, _⟩ => ⟨st, hcollect, htypes, hunits⟩⟩

/-! ## The power-of-two test -/

theorem testBit_of_two_pow_le (k y : Nat) (hlo : 2 ^ k ≤ y) (hhi : y < 2 ^ (k + 1)) :
    y.testBit k = true := by
  obtain ⟨r, rfl⟩ := Nat.exists_eq_add_of_le hlo
  have hr : r < 2 ^ k := by
    rw [Nat.pow_succ] at hhi
    omega
  rw [Nat.testBit_two_pow_add_eq, Nat.testBit_lt_two_pow hr]
  rfl

theorem land_pred_eq_zero_iff (n : Nat) (hn : 0 < n) :
    n &&& (n - 1) = 0 ↔ ∃ k : Nat, n = 2 ^ k := by
  constructor
  · intro hzero
    refine ⟨Nat.log 2 n, ?_⟩
    by_contra hne
    have hlo : 2 ^ Nat.log 2 n ≤ n := Nat.pow_log_le_self 2 (by omega)
    have hhi : n < 2 ^ (Nat.log 2 n + 1) := Nat.lt_pow_succ_log_self (by decide) n
    have hlt : 2 ^ Nat.log 2 n < n := lt_of_le_of_ne hlo (fun e => hne e.symm)
    have hbit1 := testBit_of_two_pow_le (Nat.log 2 n) n hlo hhi
    have hbit2 := testBit_of_two_pow_le (Nat.log 2 n) (n - 1) (by omega) (by omega)
    have hand : (n &&& (n - 1)).testBit (Nat.log 2 n) = true := by
      rw [Nat.testBit_and, hbit1, hbit2]
      rfl
    rw [hzero, Nat.zero_testBit] at hand
    exact Bool.noConfusion hand
  · rintro ⟨k, rfl⟩
    rw [Nat.and_pow_two_sub_one_eq_mod, Nat.mod_self]

theorem notPowerOfTwo_iff (x : Int) (hx : 0 ≤ x) :
    notPowerOfTwo x = true ↔ ¬ ∃ k : Nat, x = 2 ^ k := by
  obtain ⟨n, rfl⟩ := Int.eq_ofNat_of_zero_le hx
  unfold notPowerOfTwo
  rcases Nat.eq_zero_or_pos n with hzero | hpos
  · subst hzero
    simp only [Nat.cast_zero, beq_self_eq_true, Bool.true_or, true_iff]
    rintro ⟨k, hk⟩
    have : (0 : Int) < 2 ^ k := by positivity
    omega
  · have hsub : ((n : Nat) : Int) - 1 = ((n - 1 : Nat) : Int) := by omega
    have hland : Int.land ((n : Nat) : Int) (((n - 1 : Nat)) : Int) = ((n &&& (n - 1) : Nat) : Int) := rfl
    have hne : ((n : Nat) : Int) ≠ 0 := by omega
    rw [hsub, hland]
    have hiff := land_pred_eq_zero_iff n hpos
    have hcast : (∃ k : Nat, ((n : Nat) : Int) = 2 ^ k) ↔ ∃ k : Nat, n = 2 ^ k := by
      constructor
      · rintro ⟨k, hk⟩
        exact ⟨k, by exact_mod_cast hk⟩
      · rintro ⟨k, hk⟩
        exact ⟨k, by exact_mod_cast hk⟩
    rw [hcast, ← hiff]
    simp [hne]

/-! ## The min filter of an image-layer texture -/

/-- C9: the texture that `applyLayers` creates for an image colour layer whose
image has dimensions `s, t >= 0` has MIN_FILTER `LINEAR` when the min filter
of the layer is a mipmapping filter (neither `LINEAR` nor `NEAREST`) and `s`
or `t` is not a power of two, and the min filter of the layer otherwise; the
test `x==0 || (x & (x-1))` holds exactly when `x` is not `2^k` for any
`k >= 0`; and that texture is the one set on the layer's unit when the layer
has no texture yet. -/
theorem newImageTexture_minFilter {R M E S : Type} (colorLayer : LayerBase R M E)
    (image : Image R) (hs : 0 ≤ image.s) (ht : 0 ≤ image.t) :
    (((colorLayer.minFilter ≠ FilterMode.LINEAR ∧ colorLayer.minFilter ≠ FilterMode.NEAREST)
          ∧ ((¬ ∃ k : Nat, image.s = 2 ^ k) ∨ ¬ ∃ k : Nat, image.t = 2 ^ k)) →
        (newImageTexture colorLayer image).minFilter = FilterMode.LINEAR)
      ∧ (¬ ((colorLayer.minFilter ≠ FilterMode.LINEAR ∧ colorLayer.minFilter ≠ FilterMode.NEAREST)
          ∧ ((¬ ∃ k : Nat, image.s = 2 ^ k) ∨ ¬ ∃ k : Nat, image.t = 2 ^ k)) →
        (newImageTexture colorLayer image).minFilter = colorLayer.minFilter)
      ∧ (∀ x : Int, 0 ≤ x → (notPowerOfTwo x = true ↔ ¬ ∃ k : Nat, x = 2 ^ k))
      ∧ ∀ st : ApplyState R S,
          lookupTexture st.layerToTextureMap colorLayer.ptr TextureTarget.TEXTURE_2D = none →
          colorLayer.image = some image →
          (applyResolvedLayer st (Layer.imageLayer colorLayer)).stateset
            = st.stateset ++
              [StateSetCall.setTextureAttributeAndModes (st.layerTypes.length : Int)
                  (newImageTexture colorLayer image),
                StateSetCall.addUniform ("colorTexture" ++ toString st.layerTypes.length)
                  (st.layerTypes.length : Int)] := by
  have hS := notPowerOfTwo_iff image.s hs
  have hT := notPowerOfTwo_iff image.t ht
  refine ⟨?_, ?_, notPowerOfTwo_iff, ?_⟩
  · rintro ⟨⟨hlin, hnear⟩, hdim⟩
    have hor : (notPowerOfTwo image.s || notPowerOfTwo image.t) = true := by
      rw [Bool.or_eq_true, hS, hT]
      exact hdim
    unfold newImageTexture
    simp [hlin, hnear, hor]
  · intro hcond
    unfold newImageTexture
    simp only []
    split
    · rename_i hif
      simp only [Bool.and_eq_true, Bool.not_eq_true', Bool.or_eq_false_iff, beq_eq_false_iff_ne,
        ne_eq, Bool.or_eq_true, hS, hT] at hif
      exact absurd hif hcond
    · rfl
  · intro st hlookup himage
    simp only [applyResolvedLayer, Layer.base, himage, hlookup, bindTexture]
    rfl

/-- C9 at a 6 by 8 image on a layer with min filter `LINEAR_MIPMAP_LINEAR`
(the new texture gets `LINEAR`) and at an 8 by 8 image (the filter is kept). -/
theorem newImageTexture_minFilter_witness :
    0 ≤ (pixelImage 1 6 8).s ∧ 0 ≤ (pixelImage 1 6 8).t
      ∧ (newImageTexture (imageBase 1 FilterMode.LINEAR_MIPMAP_LINEAR) (pixelImage 1 6 8)).minFilter
        = FilterMode.LINEAR
      ∧ (newImageTexture (imageBase 1 FilterMode.LINEAR_MIPMAP_LINEAR) (pixelImage 1 8 8)).minFilter
        = FilterMode.LINEAR_MIPMAP_LINEAR :=
  ⟨by decide, by decide,
    (@newImageTexture_minFilter Int (Int × Int) Unit String
      (imageBase 1 FilterMode.LINEAR_MIPMAP_LINEAR) (pixelImage 1 6 8) (by decide) (by decide)).1
      ⟨⟨by decide, by decide⟩,
        Or.inl (((@newImageTexture_minFilter Int (Int × Int) Unit String
          (imageBase 1 FilterMode.LINEAR_MIPMAP_LINEAR) (pixelImage 1 6 8)
          (by decide) (by decide)).2.2.1 6 (by decide)).1 (by decide))⟩,
    (@newImageTexture_minFilter Int (Int × Int) Unit String
      (imageBase 1 FilterMode.LINEAR_MIPMAP_LINEAR) (pixelImage 1 8 8) (by decide) (by decide)).2.1
      (fun hcond => hcond.2.elim (fun hnot => hnot ⟨3, rfl⟩) (fun hnot => hnot ⟨3, rfl⟩))⟩

/-! ## ShaderTerrain::init -/

/-- C8 at a technique with an empty pool to which a dirty tile (mask 1) is
attached whose height-field layer has no height field: `getTileSubgraph` does
not return, because its call of `applyLayers` dereferences the null height
field, so `init` stores no transform and never reaches `setDirtyMask(0)`. -/
theorem init_null_height_field :
    nullHeightFieldTile.dirtyMask = 1
      ∧ applyLayers fixedHost
          (getOrCreateGeometry fixedHost GeometryPool.empty nullHeightFieldTile).2
          nullHeightFieldTile [] = none
      ∧ getTileSubgraph fixedHost GeometryPool.empty nullHeightFieldTile = none
      ∧ ShaderTerrain.init fixedHost ⟨some nullHeightFieldTile, none, GeometryPool.empty⟩ 1 false
        = none :=
  ⟨rfl, rfl, rfl, rfl⟩

/-- How `init` follows `getTileSubgraph`, for every `dirtyMask` and
`assumeMultiThreaded`: without tile it returns with the technique (transform,
pool, tile) as it was; with a tile for which `getTileSubgraph` returns a
transform, it returns with that transform stored, the pool as
`getTileSubgraph` left it and the tile's dirty mask 0, the tile being
otherwise as it was; and with a tile for which `getTileSubgraph` does not
return (a null height field is dereferenced, or an array is read past its
end), neither does `init`. -/
theorem init_marks_tile_clean {R M E S : Type} [DecidableEq R] (h : Host R M E S)
    (self : ShaderTerrain R M E S) (dirtyMask : Int) (assumeMultiThreaded : Bool) :
    (self.terrainTile = none → self.init h dirtyMask assumeMultiThreaded = some self)
      ∧ (∀ (tile : TerrainTile R M E) (transform : MatrixTransform R M S)
          (pool : GeometryPool R S),
          self.terrainTile = some tile →
          getTileSubgraph h self.geometryPool tile = some (transform, pool) →
          self.init h dirtyMask assumeMultiThreaded
              = some ⟨some (tile.setDirtyMask 0), some transform, pool⟩
            ∧ (tile.setDirtyMask 0).dirtyMask = 0
            ∧ (tile.setDirtyMask 0).elevationLayer = tile.elevationLayer
            ∧ (tile.setDirtyMask 0).colorLayers = tile.colorLayers)
      ∧ (∀ tile : TerrainTile R M E, self.terrainTile = some tile →
          getTileSubgraph h self.geometryPool tile = none →
          self.init h dirtyMask assumeMultiThreaded = none) := by
  refine ⟨?_, ?_, ?_⟩
  · intro hnone
    unfold ShaderTerrain.init
    rw [hnone]
  · intro tile transform pool htile hsub
    refine ⟨?_, rfl, rfl, rfl⟩
    unfold ShaderTerrain.init
    rw [htile]
    simp only [hsub]
  · intro tile htile hsub
    unfold ShaderTerrain.init
    rw [htile]
    simp only [hsub]

/-- The technique after `init` with `layeredTile` attached, an empty pool and no
transform, and after `init` without tile. -/
theorem init_marks_tile_clean_witness :
    (∃ (transform : MatrixTransform Int (Int × Int) String) (pool : GeometryPool Int String),
        getTileSubgraph fixedHost GeometryPool.empty layeredTile = some (transform, pool)
          ∧ ShaderTerrain.init fixedHost ⟨some layeredTile, none, GeometryPool.empty⟩ 1 false
            = some ⟨some (layeredTile.setDirtyMask 0), some transform, pool⟩)
      ∧ ShaderTerrain.init fixedHost
          (⟨none, none, GeometryPool.empty⟩ : ShaderTerrain Int (Int × Int) Unit String) 1 false
        = some ⟨none, none, GeometryPool.empty⟩ := by
  refine ⟨?_, (init_marks_tile_clean fixedHost ⟨none, none, GeometryPool.empty⟩ 1 false).1 rfl⟩
  have hsome : (getTileSubgraph fixedHost GeometryPool.empty layeredTile).isSome = true := by
    decide
  obtain ⟨⟨transform, pool⟩, hres⟩ := Option.isSome_iff_exists.mp hsome
  exact ⟨transform, pool, hres,
    ((init_marks_tile_clean fixedHost ⟨some layeredTile, none, GeometryPool.empty⟩ 1 false).2.1
      layeredTile transform pool rfl hres).1⟩

/-! ## A height field that is not square -/

/-- C2 at a tile whose height field has 2 columns and 3 rows, on an empty
pool: the key records 2 columns and 3 rows, and the created geometry has 4
vertices, 4 normals and 4 texture coordinates, not 6; `getTileSubgraph`, which
pairs vertices with the 6 height samples, reads past the end of the arrays. -/
theorem getOrCreateGeometry_two_by_three :
    (createKeyForTile fixedHost (mkTile (some (flatHeightFieldLayer 1 2 3)) [])
        fixedHost.defaultKey).2.nx = 2
      ∧ (createKeyForTile fixedHost (mkTile (some (flatHeightFieldLayer 1 2 3)) [])
        fixedHost.defaultKey).2.ny = 3
      ∧ (getOrCreateGeometry fixedHost GeometryPool.empty
          (mkTile (some (flatHeightFieldLayer 1 2 3)) [])).1.vertices.length = 4
      ∧ (getOrCreateGeometry fixedHost GeometryPool.empty
          (mkTile (some (flatHeightFieldLayer 1 2 3)) [])).1.normals.length = 4
      ∧ (getOrCreateGeometry fixedHost GeometryPool.empty
          (mkTile (some (flatHeightFieldLayer 1 2 3)) [])).1.texcoords.length = 4
      ∧ (getTileSubgraph fixedHost GeometryPool.empty
          (mkTile (some (flatHeightFieldLayer 1 2 3)) [])).isSome = false := by
  decide

/-! ## Sharing of geometry between non-geocentric tiles -/

/-- The geometry `getOrCreateGeometry` creates for a non-geocentric tile: the
unit grid of `key.nx` by `key.nx` positions with normal `(0,0,1)`, at the
address the allocator hands out. -/
theorem getOrCreateGeometry_created_flat {R M E S : Type} [DecidableEq R] (h : Host R M E S)
    (pool : GeometryPool R S) (tile : TerrainTile R M E)
    (hflat : specNonGeocentric tile)
    (hnone : pool.geometryMap.find (createKeyForTile h tile h.defaultKey).2 = none) :
    (getOrCreateGeometry h pool tile).1
      = { ptr := pool.allocated
          vertices := (gridPositions h (createKeyForTile h tile h.defaultKey).2.nx
            (createKeyForTile h tile h.defaultKey).2.nx).map h.toVec3f
          normals := (gridPositions h (createKeyForTile h tile h.defaultKey).2.nx
            (createKeyForTile h tile h.defaultKey).2.nx).map
              fun _ => h.toVec3f ⟨h.zero, h.zero, h.one⟩
          colours := [⟨h.toFloat h.one, h.toFloat h.one, h.toFloat h.one, h.toFloat h.one⟩]
          texcoords := (gridPositions h (createKeyForTile h tile h.defaultKey).2.nx
            (createKeyForTile h tile h.defaultKey).2.nx).map
              fun pos => (⟨h.toFloat pos.x, h.toFloat pos.y⟩ : Vec2 R)
          primitiveSets := [gridElements (createKeyForTile h tile h.defaultKey).2.nx
            (createKeyForTile h tile h.defaultKey).2.nx
            ⟨decide (((createKeyForTile h tile h.defaultKey).2.nx : Int)
              * ((createKeyForTile h tile h.defaultKey).2.nx : Int) ≤ 16384), []⟩] } := by
  unfold specNonGeocentric at hflat
  unfold getOrCreateGeometry
  simp only [hnone]
  cases hmaster : computeMasterLocator tile with
  | none => rfl
  | some locator =>
    rw [hmaster] at hflat
    cases hem : locator.ellipsoidModel with
    | none => simp only [hem]
    | some em =>
      rcases hflat with hcs | hnoem
      · simp only [hem, hcs, if_false]
      · rw [hem] at hnoem
        exact Bool.noConfusion hnoem

/-- C11: for every two tiles with equal keys from `createKeyForTile`, each with
a master locator that is absent, not GEOCENTRIC or without ellipsoid model,
the geometries `getOrCreateGeometry` builds from scratch (in pools that do not
hold the key) have the same vertex, normal, colour, texture-coordinate and
element-index arrays, whatever the transforms of the locators; and the pooled
geometry of the first, which is what the second gets from the pool the first
call left, has the arrays the second would have built. -/
theorem getOrCreateGeometry_sharing_sound {R M E S : Type} [DecidableEq R] (h : Host R M E S)
    (pool1 pool2 : GeometryPool R S) (tile1 tile2 : TerrainTile R M E)
    (hkey : (createKeyForTile h tile1 h.defaultKey).2 = (createKeyForTile h tile2 h.defaultKey).2)
    (hflat1 : specNonGeocentric tile1) (hflat2 : specNonGeocentric tile2)
    (hnone1 : pool1.geometryMap.find (createKeyForTile h tile1 h.defaultKey).2 = none)
    (hnone2 : pool2.geometryMap.find (createKeyForTile h tile2 h.defaultKey).2 = none) :
    (getOrCreateGeometry h pool1 tile1).1.arrays = (getOrCreateGeometry h pool2 tile2).1.arrays
      ∧ (getOrCreateGeometry h (getOrCreateGeometry h pool1 tile1).2 tile2).1.arrays
        = (getOrCreateGeometry h pool2 tile2).1.arrays := by
  have harrays : (getOrCreateGeometry h pool1 tile1).1.arrays
      = (getOrCreateGeometry h pool2 tile2).1.arrays := by
    rw [getOrCreateGeometry_created_flat h pool1 tile1 hflat1 hnone1,
      getOrCreateGeometry_created_flat h pool2 tile2 hflat2 hnone2, hkey]
    rfl
  refine ⟨harrays, ?_⟩
  have hfind := getOrCreateGeometry_find h pool1 tile1
  rw [hkey] at hfind
  rw [getOrCreateGeometry_of_find h _ tile2 _ hfind]
  exact harrays

/-- C11 at `projectedTile` and `geocentricBareTile`, whose locators translate
by `(5, 7)` and `(9, 0)`, on empty pools. -/
theorem getOrCreateGeometry_sharing_sound_witness :
    (createKeyForTile fixedHost projectedTile fixedHost.defaultKey).2
        = (createKeyForTile fixedHost geocentricBareTile fixedHost.defaultKey).2
      ∧ specNonGeocentric projectedTile ∧ specNonGeocentric geocentricBareTile
      ∧ (getOrCreateGeometry fixedHost GeometryPool.empty projectedTile).1.arrays
        = (getOrCreateGeometry fixedHost GeometryPool.empty geocentricBareTile).1.arrays
      ∧ (getOrCreateGeometry fixedHost
          (getOrCreateGeometry fixedHost GeometryPool.empty projectedTile).2
          geocentricBareTile).1.arrays
        = (getOrCreateGeometry fixedHost GeometryPool.empty geocentricBareTile).1.arrays :=
  ⟨by decide, Or.inl (by decide), Or.inr rfl,
    getOrCreateGeometry_sharing_sound fixedHost GeometryPool.empty GeometryPool.empty
      projectedTile geocentricBareTile (by decide) (Or.inl (by decide)) (Or.inr rfl)
      (by decide) (by decide)⟩

end osgTerrain

namespace osgDot

/-! ## Node statements -/

theorem buildLabel_eq (classText name : String) :
    buildLabel classText name = specLabel classText name := by
  unfold buildLabel specLabel
  by_cases hname : name = "" <;> simp [hname]

theorem drawNode_nodes (self : SimpleDotVisitor) (id : Int) (shape label color : String) :
    (drawNode self id shape "solid" label color "white").nodes
      = self.nodes ++ specNodeLine id shape label color := by
  simp [drawNode, specNodeLine, endl, String.append_assoc]

theorem drawNode_edges (self : SimpleDotVisitor) (id : Int)
    (shape style label color fillColor : String) :
    (drawNode self id shape style label color fillColor).edges = self.edges := rfl

theorem drawEdge_edges (self : SimpleDotVisitor) (sourceId sinkId : Int) (style : String) :
    (drawEdge self sourceId sinkId style).edges
      = self.edges ++ specEdgeLine sourceId sinkId style := by
  simp [drawEdge, specEdgeLine, endl, String.append_assoc]

theorem drawEdge_nodes (self : SimpleDotVisitor) (sourceId sinkId : Int) (style : String) :
    (drawEdge self sourceId sinkId style).nodes = self.nodes := rfl

/-- C7: for every visitor state, object and id, each single-object handler
appends to the node buffer exactly the line `<id>[shape="S" ,label="L"
,style="solid" ,color="C" ,fillColor="white"]` and a newline, where `L` is
`"<top> "`, the class name (the literal `Node` in the plain-node handler) and,
if and only if the name is non-empty, `"| "` and the name; `(S, C)` is
`(record, black)` for Node and Group, `(record, brown)` for Geode,
`(record, blue)` for Drawable and `(Mrecord, green)` for StateSet. -/
theorem handle_appends_node_statement (self : SimpleDotVisitor) (object : Object) (id : Int) :
    (handleNode self object id).nodes
        = self.nodes ++ specNodeLine id "record" (specLabel "Node" object.name) "black"
      ∧ (handleGroup self object id).nodes
        = self.nodes ++ specNodeLine id "record" (specLabel object.className object.name) "black"
      ∧ (handleGeode self object id).nodes
        = self.nodes ++ specNodeLine id "record" (specLabel object.className object.name) "brown"
      ∧ (handleDrawable self object id).nodes
        = self.nodes ++ specNodeLine id "record" (specLabel object.className object.name) "blue"
      ∧ (handleStateSet self object id).nodes
        = self.nodes ++ specNodeLine id "Mrecord" (specLabel object.className object.name) "green" := by
  refine ⟨?_, ?_, ?_, ?_, ?_⟩
  · rw [← buildLabel_eq]; exact drawNode_nodes _ _ _ _ _
  · rw [← buildLabel_eq]; exact drawNode_nodes _ _ _ _ _
  · rw [← buildLabel_eq]; exact drawNode_nodes _ _ _ _ _
  · rw [← buildLabel_eq]; exact drawNode_nodes _ _ _ _ _
  · rw [← buildLabel_eq]; exact drawNode_nodes _ _ _ _ _

/-! ## Edge statements and the separation of the two buffers -/

/-- C10: every parent/child handler appends to the edge buffer exactly the
line `<parentID>:top -> <childID>:top [style="S"];` and a newline, with `S`
`setlinewidth(2)` for Group-Node and `dashed` for Node-StateSet,
Geode-Drawable and Drawable-StateSet, and leaves the node buffer unchanged;
every single-object handler leaves the edge buffer unchanged and extends the
node buffer; so what a buffer held before a call is the beginning of what it
holds after. -/
theorem handle_keeps_buffers_separate (self : SimpleDotVisitor) (parent child : Object)
    (parentID childID : Int) :
    ((handleGroupNode self parent child parentID childID).edges
          = self.edges ++ specEdgeLine parentID childID "setlinewidth(2)"
        ∧ (handleGroupNode self parent child parentID childID).nodes = self.nodes)
      ∧ ((handleNodeStateSet self parent child parentID childID).edges
          = self.edges ++ specEdgeLine parentID childID "dashed"
        ∧ (handleNodeStateSet self parent child parentID childID).nodes = self.nodes)
      ∧ ((handleGeodeDrawable self parent child parentID childID).edges
          = self.edges ++ specEdgeLine parentID childID "dashed"
        ∧ (handleGeodeDrawable self parent child parentID childID).nodes = self.nodes)
      ∧ ((handleDrawableStateSet self parent child parentID childID).edges
          = self.edges ++ specEdgeLine parentID childID "dashed"
        ∧ (handleDrawableStateSet self parent child parentID childID).nodes = self.nodes)
      ∧ ((handleNode self parent parentID).edges = self.edges
        ∧ (handleGroup self parent parentID).edges = self.edges
        ∧ (handleGeode self parent parentID).edges = self.edges
        ∧ (handleDrawable self parent parentID).edges = self.edges
        ∧ (handleStateSet self parent parentID).edges = self.edges)
      ∧ (self.nodes.data <+: (handleNode self parent parentID).nodes.data
        ∧ self.nodes.data <+: (handleGroup self parent parentID).nodes.data
        ∧ self.nodes.data <+: (handleGeode self parent parentID).nodes.data
        ∧ self.nodes.data <+: (handleDrawable self parent parentID).nodes.data
        ∧ self.nodes.data <+: (handleStateSet self parent parentID).nodes.data)
      ∧ (self.edges.data <+: (handleGroupNode self parent child parentID childID).edges.data
        ∧ self.edges.data <+: (handleNodeStateSet self parent child parentID childID).edges.data
        ∧ self.edges.data <+: (handleGeodeDrawable self parent child parentID childID).edges.data
        ∧ self.edges.data
          <+: (handleDrawableStateSet self parent child parentID childID).edges.data) := by
  have hnode : ∀ (shape label color : String) (st : SimpleDotVisitor),
      st.nodes = self.nodes →
      self.nodes.data <+: (drawNode st parentID shape "solid" label color "white").nodes.data := by
    intro shape label color st hst
    rw [drawNode_nodes, hst, String.data_append]
    exact List.prefix_append _ _
  have hedge : ∀ (style : String) (st : SimpleDotVisitor), st.edges = self.edges →
      self.edges.data <+: (drawEdge st parentID childID style).edges.data := by
    intro style st hst
    rw [drawEdge_edges, hst, String.data_append]
    exact List.prefix_append _ _
  refine ⟨⟨drawEdge_edges _ _ _ _, rfl⟩, ⟨drawEdge_edges _ _ _ _, rfl⟩,
    ⟨drawEdge_edges _ _ _ _, rfl⟩, ⟨drawEdge_edges _ _ _ _, rfl⟩,
    ⟨rfl, rfl, rfl, rfl, rfl⟩, ⟨?_, ?_, ?_, ?_, ?_⟩, ⟨?_, ?_, ?_, ?_⟩⟩
  · exact hnode _ _ _ _ rfl
  · exact hnode _ _ _ _ rfl
  · exact hnode _ _ _ _ rfl
  · exact hnode _ _ _ _ rfl
  · exact hnode _ _ _ _ rfl
  · exact hedge _ _ rfl
  · exact hedge _ _ rfl
  · exact hedge _ _ rfl
  · exact hedge _ _ rfl

end osgDot
